import Mathlib

/-!
Verification development for the `aperture` observability pipeline.

Each definition is a shallow embedding of a function of the TypeScript
source (file and symbol named in the doc comment).  JavaScript numbers that
only ever hold integral millisecond timestamps or counters are modelled as
`Nat`; fractional token balances are modelled as `Rat`; JS `Map`s are
modelled as total functions with the code's `get(k) ?? default` built in,
or as `Option`-valued functions when the code distinguishes absence.
`undefined`/absence of an optional field is modelled as `Option.none`
(a field explicitly present with value `undefined` is identified with an
absent field; no claim here exercises the difference).
-/

namespace Aperture

/-! ## Tunnel dispatcher (src/tunnel/dispatcher.ts) -/

namespace Tunnel

/-- The six envelope kinds of `TelemetryKind` (src/tunnel/types.ts).
The dispatcher's breaker map is keyed by the string `"kind:" ++ kind`,
which is injective in the kind, so we key directly by the kind. -/
inductive TelemetryKind where
  | log | error | metric | trace | rum | custom
deriving DecidableEq, Repr

/-- Circuit-breaker phase (`BackoffState.state` in dispatcher.ts). -/
inductive CBState where
  | closed | opened | halfOpen
deriving DecidableEq, Repr

/-- `BackoffState` of dispatcher.ts: `{ failures, openedAt?, state }`. -/
structure BackoffState where
  failures : Nat
  openedAt : Option Nat
  state : CBState
deriving DecidableEq, Repr

/-- The state `this.backoff.get(key) ?? { failures: 0, state: "closed" }`
used for a key that was never stored. -/
def initBackoff : BackoffState := ⟨0, none, .closed⟩

/-- Result of one `TunnelDispatcher.send` call:
whether `trySend` (and hence `route`) was invoked at all, whether the call
returned normally, whether it threw the `"circuit-open"` error, and the
breaker state stored for the envelope's kind afterwards. -/
structure SendResult where
  attempted : Bool
  ok : Bool
  circuitOpen : Bool
  newState : BackoffState
deriving DecidableEq, Repr

/-- One `TunnelDispatcher.send(envelope)` call (dispatcher.ts), for the
breaker state `bs` currently associated with the envelope's kind, at wall
clock `now`, where `attemptOk` abstracts whether the inner
`await this.trySend(envelope)` returns without throwing.
The `t ≠ 0` conjunct mirrors the JS truthiness test
`state.openedAt && now() - state.openedAt > this.circuitResetMs`
(an `openedAt` of `0` is falsy).  `now - t` is `Nat` subtraction; the JS
subtraction can only make the `>` comparison differ when `now < t`, where
both sides make the test false. -/
def sendStep (circuitThreshold circuitResetMs : Nat) (bs : BackoffState)
    (now : Nat) (attemptOk : Bool) : SendResult :=
  let bs1 :=
    if bs.state = CBState.opened then
      match bs.openedAt with
      | some t =>
          if t ≠ 0 ∧ circuitResetMs < now - t then
            { bs with state := CBState.halfOpen }
          else bs
      | none => bs
    else bs
  if bs1.state = CBState.opened then
    ⟨false, false, true, bs1⟩
  else if attemptOk then
    ⟨true, true, false, initBackoff⟩
  else
    let f := bs1.failures + 1
    if circuitThreshold ≤ f then
      ⟨true, false, false, ⟨f, some now, CBState.opened⟩⟩
    else
      ⟨true, false, false, ⟨f, bs1.openedAt, bs1.state⟩⟩

/-- `DispatchResult` counts of `TunnelDispatcher.dispatch`:
`{accepted, dropped, errors}`. -/
structure DispatchResult where
  accepted : Nat
  dropped : Nat
  errors : Nat
deriving DecidableEq, Repr

/-- `TunnelDispatcher.dispatch(envelope)`: `send` succeeding yields
`{1,0,0}`, any thrown error yields `{0,1,1}`. -/
def dispatchCounts (r : SendResult) : DispatchResult :=
  if r.ok then ⟨1, 0, 0⟩ else ⟨0, 1, 1⟩

/-- The dispatcher's whole breaker map `this.backoff`, as a total function
with the `get(key) ?? initBackoff` default applied. -/
def BreakerMap : Type := TelemetryKind → BackoffState

/-- One `dispatch` call for an envelope of kind `k`: reads and writes only
the breaker entry of `k`. -/
def dispatchStep (circuitThreshold circuitResetMs : Nat) (m : BreakerMap)
    (k : TelemetryKind) (now : Nat) (attemptOk : Bool) :
    SendResult × BreakerMap :=
  let r := sendStep circuitThreshold circuitResetMs (m k) now attemptOk
  (r, fun j => if j = k then r.newState else m j)

/-- Folding a sequence of `send` calls (`(now, attemptOk)` pairs) over one
kind's breaker state. -/
def runSends (circuitThreshold circuitResetMs : Nat) (bs : BackoffState) :
    List (Nat × Bool) → BackoffState
  | [] => bs
  | (t, b) :: rest =>
      runSends circuitThreshold circuitResetMs
        (sendStep circuitThreshold circuitResetMs bs t b).newState rest

/-- `TunnelDispatcher.trySend` (dispatcher.ts), started at attempt counter
`attempt`: `routeOk i` tells whether the `i`-th invocation of
`this.route(envelope)` returns without throwing.  Returns
(success, number of `route` invocations, list of backoff waits in order).
A failing attempt increments the counter to `a`; if `a > maxRetries` the
error propagates, otherwise the loop waits `baseDelayMs * 2 ^ (a - 1)`
milliseconds and retries. -/
def trySendGo (routeOk : Nat → Bool) (maxRetries baseDelayMs attempt : Nat) :
    Bool × Nat × List Nat :=
  if routeOk attempt then (true, 1, [])
  else if maxRetries < attempt + 1 then (false, 1, [])
  else
    let r := trySendGo routeOk maxRetries baseDelayMs (attempt + 1)
    (r.1, r.2.1 + 1, baseDelayMs * 2 ^ attempt :: r.2.2)
termination_by maxRetries + 1 - attempt
decreasing_by omega

/-- `trySend` as called by `send`: the attempt counter starts at `0`. -/
def trySendRun (routeOk : Nat → Bool) (maxRetries baseDelayMs : Nat) :
    Bool × Nat × List Nat :=
  trySendGo routeOk maxRetries baseDelayMs 0

/-- Every `trySend` run invokes `route` at least once. -/
theorem trySendGo_pos (routeOk : Nat → Bool) (maxRetries baseDelayMs : Nat) :
    ∀ attempt, 1 ≤ (trySendGo routeOk maxRetries baseDelayMs attempt).2.1 := by
  intro attempt
  rw [trySendGo]
  split
  · simp
  · split
    · simp
    · simp

/-- Unfolding equation: a successful `route` invocation ends the loop. -/
theorem trySendGo_succeed (routeOk : Nat → Bool) (maxRetries baseDelayMs attempt : Nat)
    (h1 : routeOk attempt = true) :
    trySendGo routeOk maxRetries baseDelayMs attempt = (true, 1, []) := by
  rw [trySendGo, if_pos h1]

/-- Unfolding equation: a failing invocation past the retry budget
propagates the error. -/
theorem trySendGo_exhaust (routeOk : Nat → Bool) (maxRetries baseDelayMs attempt : Nat)
    (h1 : ¬ routeOk attempt = true) (h2 : maxRetries < attempt + 1) :
    trySendGo routeOk maxRetries baseDelayMs attempt = (false, 1, []) := by
  rw [trySendGo, if_neg h1, if_pos h2]

/-- Unfolding equation: a failing invocation inside the retry budget waits
`baseDelayMs * 2 ^ attempt` ms and retries with the counter bumped. -/
theorem trySendGo_retry (routeOk : Nat → Bool) (maxRetries baseDelayMs attempt : Nat)
    (h1 : ¬ routeOk attempt = true) (h2 : ¬ maxRetries < attempt + 1) :
    trySendGo routeOk maxRetries baseDelayMs attempt =
      ((trySendGo routeOk maxRetries baseDelayMs (attempt + 1)).1,
       (trySendGo routeOk maxRetries baseDelayMs (attempt + 1)).2.1 + 1,
       baseDelayMs * 2 ^ attempt ::
         (trySendGo routeOk maxRetries baseDelayMs (attempt + 1)).2.2) := by
  rw [trySendGo, if_neg h1, if_neg h2]

/-- With the attempt counter at `attempt ≤ maxRetries`, at most
`maxRetries + 1 - attempt` invocations of `route` happen. -/
theorem trySendGo_inv_le (routeOk : Nat → Bool) (maxRetries baseDelayMs : Nat) :
    ∀ n attempt, maxRetries + 1 - attempt ≤ n → attempt ≤ maxRetries →
      (trySendGo routeOk maxRetries baseDelayMs attempt).2.1 ≤
        maxRetries + 1 - attempt := by
  intro n
  induction n with
  | zero => intro attempt h1 h2; omega
  | succ n ih =>
      intro attempt h1 h2
      by_cases hr : routeOk attempt = true
      · rw [trySendGo_succeed routeOk maxRetries baseDelayMs attempt hr]
        show 1 ≤ maxRetries + 1 - attempt
        omega
      · by_cases hm : maxRetries < attempt + 1
        · rw [trySendGo_exhaust routeOk maxRetries baseDelayMs attempt hr hm]
          show 1 ≤ maxRetries + 1 - attempt
          omega
        · rw [trySendGo_retry routeOk maxRetries baseDelayMs attempt hr hm]
          have hrec := ih (attempt + 1) (by omega) (by omega)
          show (trySendGo routeOk maxRetries baseDelayMs (attempt + 1)).2.1 + 1 ≤
            maxRetries + 1 - attempt
          omega

/-- The list of backoff waits of a `trySend` run: before retry `i` the loop
waits `baseDelayMs * 2 ^ (i - 1)` ms, so the waits are successive powers. -/
theorem trySendGo_waits (routeOk : Nat → Bool) (maxRetries baseDelayMs : Nat) :
    ∀ n attempt, maxRetries + 1 - attempt ≤ n →
      (trySendGo routeOk maxRetries baseDelayMs attempt).2.2 =
        (List.range ((trySendGo routeOk maxRetries baseDelayMs attempt).2.1 - 1)).map
          (fun i => baseDelayMs * 2 ^ (attempt + i)) := by
  intro n
  induction n with
  | zero =>
      intro attempt h1
      by_cases hr : routeOk attempt = true
      · rw [trySendGo_succeed routeOk maxRetries baseDelayMs attempt hr]; simp
      · by_cases hm : maxRetries < attempt + 1
        · rw [trySendGo_exhaust routeOk maxRetries baseDelayMs attempt hr hm]; simp
        · omega
  | succ n ih =>
      intro attempt h1
      by_cases hr : routeOk attempt = true
      · rw [trySendGo_succeed routeOk maxRetries baseDelayMs attempt hr]; simp
      · by_cases hm : maxRetries < attempt + 1
        · rw [trySendGo_exhaust routeOk maxRetries baseDelayMs attempt hr hm]; simp
        · rw [trySendGo_retry routeOk maxRetries baseDelayMs attempt hr hm]
          have hrec := ih (attempt + 1) (by omega)
          have hpos := trySendGo_pos routeOk maxRetries baseDelayMs (attempt + 1)
          obtain ⟨m, hmeq⟩ : ∃ m,
              (trySendGo routeOk maxRetries baseDelayMs (attempt + 1)).2.1 = m + 1 :=
            ⟨(trySendGo routeOk maxRetries baseDelayMs (attempt + 1)).2.1 - 1,
              by omega⟩
          rw [hmeq] at hrec
          simp only [hmeq, Nat.add_sub_cancel, hrec]
          rw [List.range_succ_eq_map]
          simp only [List.map_cons, List.map_map, Nat.add_zero]
          congr 1
          apply List.map_congr_left
          intro a _
          simp only [Function.comp_apply]
          congr 2
          omega

/-- When every `route` invocation throws, `trySend` exhausts all retries
and propagates the error after `maxRetries + 1 - attempt` invocations. -/
theorem trySendGo_allFail (maxRetries baseDelayMs : Nat) :
    ∀ n attempt, maxRetries + 1 - attempt ≤ n → attempt ≤ maxRetries →
      (trySendGo (fun _ => false) maxRetries baseDelayMs attempt).1 = false ∧
      (trySendGo (fun _ => false) maxRetries baseDelayMs attempt).2.1 =
        maxRetries + 1 - attempt := by
  intro n
  induction n with
  | zero => intro attempt h1 h2; exact absurd h2 (by omega)
  | succ n ih =>
      intro attempt h1 h2
      have hr : ¬ ((fun _ : Nat => false) attempt = true) := by simp
      by_cases hm : maxRetries < attempt + 1
      · rw [trySendGo_exhaust (fun _ => false) maxRetries baseDelayMs attempt hr hm]
        refine ⟨rfl, ?_⟩
        show (1 : Nat) = maxRetries + 1 - attempt
        omega
      · rw [trySendGo_retry (fun _ => false) maxRetries baseDelayMs attempt hr hm]
        have hrec := ih (attempt + 1) (by omega) (by omega)
        refine ⟨hrec.1, ?_⟩
        show (trySendGo (fun _ => false) maxRetries baseDelayMs (attempt + 1)).2.1 + 1 =
          maxRetries + 1 - attempt
        omega

/-- C6: for every envelope, `trySend` performs at most `maxRetries`
additional routing attempts after the first, with the wait before retry `i`
equal to `baseDelayMs * 2 ^ (i - 1)` and no wait before the first attempt;
with `maxRetries = 2` and `baseDelayMs = 100`, a routing function that
fails twice then succeeds is invoked exactly 3 times with waits of 100 ms
then 200 ms before success is reported; and an always-failing routing
function propagates the final error after exactly `1 + maxRetries`
invocations. -/
theorem C6_trySend_retry_backoff (routeOk : Nat → Bool) (maxRetries baseDelayMs : Nat) :
    (trySendRun routeOk maxRetries baseDelayMs).2.1 ≤ maxRetries + 1 ∧
    (trySendRun routeOk maxRetries baseDelayMs).2.2 =
      (List.range ((trySendRun routeOk maxRetries baseDelayMs).2.1 - 1)).map
        (fun i => baseDelayMs * 2 ^ i) ∧
    trySendRun (fun i => decide (2 ≤ i)) 2 100 = (true, 3, [100, 200]) ∧
    trySendRun (fun _ => false) maxRetries baseDelayMs =
      (false, maxRetries + 1,
        (List.range maxRetries).map (fun i => baseDelayMs * 2 ^ i)) := by
  refine ⟨?_, ?_, ?_, ?_⟩
  · have h := trySendGo_inv_le routeOk maxRetries baseDelayMs (maxRetries + 1) 0
      (by omega) (by omega)
    simpa [trySendRun] using h
  · have h := trySendGo_waits routeOk maxRetries baseDelayMs (maxRetries + 1) 0
      (by omega)
    simpa [trySendRun] using h
  · rw [trySendRun,
      trySendGo_retry (fun i => decide (2 ≤ i)) 2 100 0 (by decide) (by decide),
      trySendGo_retry (fun i => decide (2 ≤ i)) 2 100 1 (by decide) (by decide),
      trySendGo_succeed (fun i => decide (2 ≤ i)) 2 100 2 (by decide)]
    norm_num
  · have h1 := trySendGo_allFail maxRetries baseDelayMs (maxRetries + 1) 0
      (by omega) (by omega)
    have h2 := trySendGo_waits (fun _ => false) maxRetries baseDelayMs
      (maxRetries + 1) 0 (by omega)
    rw [trySendRun, Prod.ext_iff, Prod.ext_iff]
    refine ⟨h1.1, by simpa using h1.2, ?_⟩
    rw [h2, h1.2]
    simp

/-- A failed attempt from a non-open breaker below the threshold just
bumps the failure counter. -/
theorem sendStep_fail_small (thr rst : Nat) (bs : BackoffState) (t : Nat)
    (hs : ¬ bs.state = CBState.opened) (hf : bs.failures + 1 < thr) :
    sendStep thr rst bs t false =
      ⟨true, false, false, ⟨bs.failures + 1, bs.openedAt, bs.state⟩⟩ := by
  have hle : ¬ thr ≤ bs.failures + 1 := by omega
  simp [sendStep, hs, hle]

/-- A failed attempt from a non-open breaker that reaches the threshold
opens the breaker, stamping the current time. -/
theorem sendStep_fail_open (thr rst : Nat) (bs : BackoffState) (t : Nat)
    (hs : ¬ bs.state = CBState.opened) (hf : thr ≤ bs.failures + 1) :
    sendStep thr rst bs t false =
      ⟨true, false, false, ⟨bs.failures + 1, some t, CBState.opened⟩⟩ := by
  simp [sendStep, hs, hf]

/-- A successful attempt from a non-open (closed or half-open) breaker
resets the failure count and closes it. -/
theorem sendStep_success (thr rst : Nat) (bs : BackoffState) (t : Nat)
    (hs : ¬ bs.state = CBState.opened) :
    sendStep thr rst bs t true = ⟨true, true, false, initBackoff⟩ := by
  simp [sendStep, hs]

/-- While open with the cooldown not yet elapsed (or an absent/zero
`openedAt`), `send` fails fast: no attempt, state untouched. -/
theorem sendStep_fastFail (thr rst : Nat) (bs : BackoffState) (t tO : Nat)
    (b : Bool) (hs : bs.state = CBState.opened) (hOa : bs.openedAt = some tO)
    (hcool : ¬ (tO ≠ 0 ∧ rst < t - tO)) :
    sendStep thr rst bs t b = ⟨false, false, true, bs⟩ := by
  simp [sendStep, hs, hOa, hcool]

/-- Once the cooldown has elapsed, an open breaker behaves as the same
breaker moved to half-open: the next call goes through as a probe. -/
theorem sendStep_probe (thr rst : Nat) (bs : BackoffState) (t tO : Nat)
    (b : Bool) (hs : bs.state = CBState.opened) (hOa : bs.openedAt = some tO)
    (h0 : tO ≠ 0) (hel : rst < t - tO) :
    sendStep thr rst bs t b =
      sendStep thr rst { bs with state := CBState.halfOpen } t b := by
  simp [sendStep, hs, hOa, h0, hel]

/-- Any non-open breaker state leads to an actual attempt. -/
theorem sendStep_attempted (thr rst : Nat) (bs : BackoffState) (t : Nat)
    (b : Bool) (hs : ¬ bs.state = CBState.opened) :
    (sendStep thr rst bs t b).attempted = true := by
  cases b
  · by_cases hf : thr ≤ bs.failures + 1
    · rw [sendStep_fail_open thr rst bs t hs hf]
    · rw [sendStep_fail_small thr rst bs t hs (by omega)]
  · rw [sendStep_success thr rst bs t hs]

/-- While open with no recorded opening time, `send` also fails fast
(the truthiness guard fails). -/
theorem sendStep_fastFail_none (thr rst : Nat) (bs : BackoffState) (t : Nat)
    (b : Bool) (hs : bs.state = CBState.opened) (hOa : bs.openedAt = none) :
    sendStep thr rst bs t b = ⟨false, false, true, bs⟩ := by
  simp [sendStep, hs, hOa]

/-- Invariant preservation, non-open start: open/half-open results carry
at least `thr` recorded failures. -/
theorem sendStep_inv_nonopen (thr rst : Nat) (bs : BackoffState) (t : Nat) (b : Bool)
    (hs : ¬ bs.state = CBState.opened)
    (hInv : bs.state = CBState.halfOpen → thr ≤ bs.failures)
    (hres : (sendStep thr rst bs t b).newState.state = CBState.opened ∨
      (sendStep thr rst bs t b).newState.state = CBState.halfOpen) :
    thr ≤ (sendStep thr rst bs t b).newState.failures := by
  cases b
  · by_cases hbig : thr ≤ bs.failures + 1
    · rw [sendStep_fail_open thr rst bs t hs hbig]
      simpa using hbig
    · rw [sendStep_fail_small thr rst bs t hs (by omega)] at hres ⊢
      dsimp only at hres ⊢
      rcases hres with h | h
      · exact absurd h hs
      · have := hInv h
        omega
  · rw [sendStep_success thr rst bs t hs] at hres
    simp [initBackoff] at hres

/-- The open and half-open states always carry at least `thr` recorded
failures: `sendStep` preserves this invariant, so a reachable half-open
probe that fails re-opens the breaker immediately. -/
theorem sendStep_inv (thr rst : Nat) (bs : BackoffState) (t : Nat) (b : Bool)
    (hInv : bs.state = CBState.opened ∨ bs.state = CBState.halfOpen →
      thr ≤ bs.failures)
    (hres : (sendStep thr rst bs t b).newState.state = CBState.opened ∨
      (sendStep thr rst bs t b).newState.state = CBState.halfOpen) :
    thr ≤ (sendStep thr rst bs t b).newState.failures := by
  by_cases hs : bs.state = CBState.opened
  · rcases hOa : bs.openedAt with _ | tO
    · rw [sendStep_fastFail_none thr rst bs t b hs hOa]
      exact hInv (Or.inl hs)
    · by_cases hcool : tO ≠ 0 ∧ rst < t - tO
      · rw [sendStep_probe thr rst bs t tO b hs hOa hcool.1 hcool.2] at hres ⊢
        refine sendStep_inv_nonopen thr rst _ t b (by simp) (fun _ => ?_) hres
        simpa using hInv (Or.inl hs)
      · rw [sendStep_fastFail thr rst bs t tO b hs hOa hcool]
        exact hInv (Or.inl hs)
  · refine sendStep_inv_nonopen thr rst bs t b hs (fun h => ?_) hres
    exact hInv (Or.inr h)

/-- Consecutive failed attempts from a closed breaker, staying strictly
below the threshold: the breaker stays closed and counts them. -/
theorem runSends_closed_failures (thr rst : Nat) :
    ∀ (ts : List Nat) (f : Nat) (oa : Option Nat), f + ts.length < thr →
      runSends thr rst ⟨f, oa, CBState.closed⟩ (ts.map (fun t => (t, false))) =
        ⟨f + ts.length, oa, CBState.closed⟩ := by
  intro ts
  induction ts with
  | nil => intro f oa h; simp [runSends]
  | cons t ts ih =>
      intro f oa h
      have hlen : f + ts.length + 1 < thr := by simp at h; omega
      simp only [List.map_cons, runSends]
      rw [sendStep_fail_small thr rst ⟨f, oa, CBState.closed⟩ t (by simp)
        (by simpa using by omega)]
      have harith : f + 1 + ts.length = f + (ts.length + 1) := by omega
      simpa [harith] using ih (f + 1) oa (by omega)

/-- `runSends` splits over list append. -/
theorem runSends_append (thr rst : Nat) (bs : BackoffState)
    (l1 l2 : List (Nat × Bool)) :
    runSends thr rst bs (l1 ++ l2) =
      runSends thr rst (runSends thr rst bs l1) l2 := by
  induction l1 generalizing bs with
  | nil => simp [runSends]
  | cons p rest ih =>
      obtain ⟨t, b⟩ := p
      simp [runSends, ih]

/-- C1: the per-kind circuit breaker follows the closed/open/half-open
state machine: a fresh kind starts closed with zero failures; fewer than
`circuitThreshold` consecutive failures leave it closed; reaching
`circuitThreshold` consecutive failures opens it at the last failure time;
while open within `circuitResetMs` of opening every dispatch of the kind
fails immediately with no routing attempt (reported as
`{accepted 0, dropped 1, errors 1}`) and leaves the state untouched; once
`circuitResetMs` has elapsed (strictly) the next dispatch is attempted as a
half-open probe; a successful attempt while closed or half-open resets the
failure count to zero and closes the breaker; a failed half-open probe
(reachable half-open states carry `≥ circuitThreshold` failures, the
preserved invariant) re-opens it immediately; and a dispatch of one kind
neither reads nor writes another kind's breaker entry. -/
theorem C1_circuit_breaker_state_machine
    (threshold resetMs : Nat)
    (tsPre : List Nat) (hlen : tsPre.length + 1 = threshold) (tLast : Nat)
    (bsO : BackoffState) (tO nowO : Nat) (bO : Bool)
    (hO : bsO.state = CBState.opened) (hOa : bsO.openedAt = some tO)
    (hcool : ¬ (tO ≠ 0 ∧ resetMs < nowO - tO))
    (bsP : BackoffState) (tP nowP : Nat) (bP : Bool)
    (hP : bsP.state = CBState.opened) (hPa : bsP.openedAt = some tP)
    (hP0 : tP ≠ 0) (hPel : resetMs < nowP - tP)
    (bsS : BackoffState) (nowS : Nat) (hS : ¬ bsS.state = CBState.opened)
    (bsH : BackoffState) (nowH : Nat) (hH : bsH.state = CBState.halfOpen)
    (hHf : threshold ≤ bsH.failures)
    (bsI : BackoffState) (nowI : Nat) (bI : Bool)
    (hIinv : bsI.state = CBState.opened ∨ bsI.state = CBState.halfOpen →
      threshold ≤ bsI.failures)
    (hIres : (sendStep threshold resetMs bsI nowI bI).newState.state = CBState.opened ∨
      (sendStep threshold resetMs bsI nowI bI).newState.state = CBState.halfOpen)
    (m : BreakerMap) (k j : TelemetryKind) (hjk : j ≠ k) (nowM : Nat) (bM : Bool) :
    initBackoff = ⟨0, none, CBState.closed⟩
    ∧ runSends threshold resetMs initBackoff (tsPre.map (fun t => (t, false))) =
      ⟨tsPre.length, none, CBState.closed⟩
    ∧ runSends threshold resetMs initBackoff
        (tsPre.map (fun t => (t, false)) ++ [(tLast, false)]) =
      ⟨threshold, some tLast, CBState.opened⟩
    ∧ sendStep threshold resetMs bsO nowO bO = ⟨false, false, true, bsO⟩
    ∧ dispatchCounts (sendStep threshold resetMs bsO nowO bO) = ⟨0, 1, 1⟩
    ∧ (sendStep threshold resetMs bsP nowP bP).attempted = true
    ∧ sendStep threshold resetMs bsS nowS true = ⟨true, true, false, initBackoff⟩
    ∧ sendStep threshold resetMs bsH nowH false =
        ⟨true, false, false, ⟨bsH.failures + 1, some nowH, CBState.opened⟩⟩
    ∧ threshold ≤ (sendStep threshold resetMs bsI nowI bI).newState.failures
    ∧ (dispatchStep threshold resetMs m k nowM bM).2 j = m j
    ∧ (dispatchStep threshold resetMs m k nowM bM).1 =
        sendStep threshold resetMs (m k) nowM bM := by
  have hclosed : runSends threshold resetMs initBackoff
      (tsPre.map (fun t => (t, false))) =
      ⟨tsPre.length, none, CBState.closed⟩ := by
    simpa [initBackoff] using
      runSends_closed_failures threshold resetMs tsPre 0 none (by omega)
  refine ⟨rfl, hclosed, ?_, ?_, ?_, ?_, ?_, ?_, ?_, ?_, ?_⟩
  · rw [runSends_append, hclosed]
    simp only [runSends]
    rw [sendStep_fail_open threshold resetMs ⟨tsPre.length, none, CBState.closed⟩
      tLast (by simp) (by simp; omega)]
    simp only [runSends]
    simp [hlen]
  · exact sendStep_fastFail threshold resetMs bsO nowO tO bO hO hOa hcool
  · rw [sendStep_fastFail threshold resetMs bsO nowO tO bO hO hOa hcool]
    rfl
  · rw [sendStep_probe threshold resetMs bsP nowP tP bP hP hPa hP0 hPel]
    exact sendStep_attempted threshold resetMs _ nowP bP (by simp)
  · exact sendStep_success threshold resetMs bsS nowS hS
  · exact sendStep_fail_open threshold resetMs bsH nowH (by simp [hH]) (by omega)
  · exact sendStep_inv threshold resetMs bsI nowI bI hIinv hIres
  · simp [dispatchStep, hjk]
  · rfl

/-- Witness for C1 at `circuitThreshold = 3`, `circuitResetMs = 100`:
two failures at times 1 and 2 leave the breaker closed, a third at time 3
opens it; at time 50 it fails fast; at time 200 the probe is attempted;
a success from a closed state resets; a failed half-open probe at time 210
re-opens; kind `metric` is untouched by a `log` dispatch. -/
theorem C1_circuit_breaker_state_machine_witness :
    initBackoff = ⟨0, none, CBState.closed⟩
    ∧ runSends 3 100 initBackoff ([1, 2].map (fun t => (t, false))) =
      ⟨2, none, CBState.closed⟩
    ∧ runSends 3 100 initBackoff
        ([1, 2].map (fun t => (t, false)) ++ [(3, false)]) =
      ⟨3, some 3, CBState.opened⟩
    ∧ sendStep 3 100 ⟨3, some 5, CBState.opened⟩ 50 true =
      ⟨false, false, true, ⟨3, some 5, CBState.opened⟩⟩
    ∧ dispatchCounts (sendStep 3 100 ⟨3, some 5, CBState.opened⟩ 50 true) = ⟨0, 1, 1⟩
    ∧ (sendStep 3 100 ⟨3, some 5, CBState.opened⟩ 200 false).attempted = true
    ∧ sendStep 3 100 ⟨2, none, CBState.closed⟩ 7 true = ⟨true, true, false, initBackoff⟩
    ∧ sendStep 3 100 ⟨3, some 5, CBState.halfOpen⟩ 210 false =
        ⟨true, false, false, ⟨3 + 1, some 210, CBState.opened⟩⟩
    ∧ 3 ≤ (sendStep 3 100 ⟨2, none, CBState.closed⟩ 9 false).newState.failures
    ∧ (dispatchStep 3 100 (fun _ => initBackoff) TelemetryKind.log 1 true).2
        TelemetryKind.metric = (fun _ => initBackoff) TelemetryKind.metric
    ∧ (dispatchStep 3 100 (fun _ => initBackoff) TelemetryKind.log 1 true).1 =
        sendStep 3 100 ((fun _ => initBackoff) TelemetryKind.log) 1 true :=
  C1_circuit_breaker_state_machine 3 100 [1, 2] (by decide) 3
    ⟨3, some 5, CBState.opened⟩ 5 50 true rfl rfl (by decide)
    ⟨3, some 5, CBState.opened⟩ 5 200 false rfl rfl (by decide) (by decide)
    ⟨2, none, CBState.closed⟩ 7 (by decide)
    ⟨3, some 5, CBState.halfOpen⟩ 210 rfl (by decide)
    ⟨2, none, CBState.closed⟩ 9 false (by intro h; exact absurd h (by decide))
    (by left; decide)
    (fun _ => initBackoff) TelemetryKind.log TelemetryKind.metric (by decide) 1 true

end Tunnel

/-! ## Token-bucket rate limiter (src/tunnel/rate-limit.ts) -/

namespace RateLimit

/-- A `Bucket` of rate-limit.ts: `{ tokens, updatedAt }`.  Token balances
are JS floats used only through `+`, `*`, `min` and comparison; they are
modelled exactly as rationals (the claims proved here never hit binary
rounding).  `updatedAt` is a `Date.now()` millisecond stamp. -/
structure Bucket where
  tokens : Rat
  updatedAt : Nat
deriving DecidableEq, Repr

/-- `TokenBucketLimiter`: capacity, per-millisecond refill rate, and the
`buckets` map (`Option`-valued: the code lazily creates entries). -/
structure Limiter where
  capacity : Rat
  refillPerMs : Rat
  buckets : String → Option Bucket

/-- The constructor: `refillPerMs = refillPerMinute / 60_000`, empty map. -/
def mkLimiter (capacity refillPerMinute : Rat) : Limiter :=
  ⟨capacity, refillPerMinute / 60000, fun _ => none⟩

/-- `TokenBucketLimiter.take(key, cost)` at wall clock `now` (the code
reads `Date.now()` itself; here the clock is passed in).  Unseen keys get
a bucket seeded at full capacity; elapsed time refills
`elapsed * refillPerMs` tokens capped at `capacity`; a sufficient balance
is deducted and `true` returned, otherwise the refilled-but-insufficient
bucket is still persisted and `false` returned. -/
def take (l : Limiter) (key : String) (now : Nat) (cost : Rat) : Bool × Limiter :=
  let b := (l.buckets key).getD ⟨l.capacity, now⟩
  let elapsed : Rat := (now : Rat) - (b.updatedAt : Rat)
  let tokens := min l.capacity (b.tokens + elapsed * l.refillPerMs)
  if cost ≤ tokens then
    (true, ⟨l.capacity, l.refillPerMs,
      fun j => if j = key then some ⟨tokens - cost, now⟩ else l.buckets j⟩)
  else
    (false, ⟨l.capacity, l.refillPerMs,
      fun j => if j = key then some ⟨tokens, now⟩ else l.buckets j⟩)

/-- `n` consecutive `take(key, 1)` calls at one fixed wall-clock instant,
collecting the returned booleans. -/
def takeRepeat (l : Limiter) (key : String) (now : Nat) : Nat → List Bool × Limiter
  | 0 => ([], l)
  | n + 1 =>
      let r := take l key now 1
      let rest := takeRepeat r.2 key now n
      (r.1 :: rest.1, rest.2)

/-- One `take` step in closed form, given the effective bucket
(`get(key) ?? seeded-at-full-capacity`) read by the call. -/
theorem take_step (l : Limiter) (key : String) (now tprev : Nat) (cost q : Rat)
    (hb : (l.buckets key).getD ⟨l.capacity, now⟩ = ⟨q, tprev⟩) :
    take l key now cost =
      if cost ≤ min l.capacity (q + ((now : Rat) - (tprev : Rat)) * l.refillPerMs) then
        (true, ⟨l.capacity, l.refillPerMs, fun j =>
          if j = key then
            some ⟨min l.capacity (q + ((now : Rat) - (tprev : Rat)) * l.refillPerMs) - cost, now⟩
          else l.buckets j⟩)
      else
        (false, ⟨l.capacity, l.refillPerMs, fun j =>
          if j = key then
            some ⟨min l.capacity (q + ((now : Rat) - (tprev : Rat)) * l.refillPerMs), now⟩
          else l.buckets j⟩) := by
  simp only [take, hb]

/-- A same-instant `take` with enough balance succeeds and deducts. -/
theorem take_succ_same (l : Limiter) (key : String) (now : Nat) (cost q : Rat)
    (hb : (l.buckets key).getD ⟨l.capacity, now⟩ = ⟨q, now⟩)
    (hqc : q ≤ l.capacity) (hge : cost ≤ q) :
    take l key now cost =
      (true, ⟨l.capacity, l.refillPerMs,
        fun j => if j = key then some ⟨q - cost, now⟩ else l.buckets j⟩) := by
  have hq : q + ((now : Rat) - (now : Rat)) * l.refillPerMs = q := by ring
  rw [take_step l key now now cost q hb, hq, min_eq_right hqc, if_pos hge]

/-- A same-instant `take` without enough balance fails but still persists
the bucket. -/
theorem take_fail_same (l : Limiter) (key : String) (now : Nat) (cost q : Rat)
    (hb : (l.buckets key).getD ⟨l.capacity, now⟩ = ⟨q, now⟩)
    (hqc : q ≤ l.capacity) (hlt : q < cost) :
    take l key now cost =
      (false, ⟨l.capacity, l.refillPerMs,
        fun j => if j = key then some ⟨q, now⟩ else l.buckets j⟩) := by
  have hq : q + ((now : Rat) - (now : Rat)) * l.refillPerMs = q := by ring
  rw [take_step l key now now cost q hb, hq, min_eq_right hqc,
    if_neg (not_le.mpr hlt)]

/-- Draining: with balance `q ≥ n` at the current instant, `n` same-instant
unit takes all succeed, leaving balance `q - n`. -/
theorem takeRepeat_drain (key : String) (now : Nat) :
    ∀ (n : Nat) (l : Limiter) (q : Rat),
      (l.buckets key).getD ⟨l.capacity, now⟩ = ⟨q, now⟩ →
      (n : Rat) ≤ q → q ≤ l.capacity →
      (takeRepeat l key now n).1 = List.replicate n true ∧
      ((takeRepeat l key now n).2.buckets key).getD
        ⟨(takeRepeat l key now n).2.capacity, now⟩ = ⟨q - n, now⟩ ∧
      (takeRepeat l key now n).2.capacity = l.capacity ∧
      (takeRepeat l key now n).2.refillPerMs = l.refillPerMs := by
  intro n
  induction n with
  | zero =>
      intro l q hb hn hq
      refine ⟨rfl, ?_, rfl, rfl⟩
      simpa using hb
  | succ n ih =>
      intro l q hb hn hq
      have h1 : (1 : Rat) ≤ q := by
        have : ((n : Rat) + 1) ≤ q := by push_cast at hn; linarith
        linarith [Nat.cast_nonneg (α := Rat) n]
      rw [show takeRepeat l key now (n + 1) =
        ((take l key now 1).1 :: (takeRepeat (take l key now 1).2 key now n).1,
         (takeRepeat (take l key now 1).2 key now n).2) from rfl]
      rw [take_succ_same l key now 1 q hb hq h1]
      have hrec := ih
        ⟨l.capacity, l.refillPerMs,
          fun j => if j = key then some ⟨q - 1, now⟩ else l.buckets j⟩
        (q - 1) (by simp) (by push_cast at hn ⊢; linarith) (by linarith)
      refine ⟨?_, ?_, ?_, ?_⟩
      · simp only [List.replicate]
        exact congrArg (List.cons true) hrec.1
      · rw [hrec.2.1]
        have : q - 1 - (n : Rat) = q - ((n : Nat) + 1 : Nat) := by push_cast; ring
        rw [this]
      · exact hrec.2.2.1
      · exact hrec.2.2.2

/-- `takeRepeat` splits over addition of counts. -/
theorem takeRepeat_add (key : String) (now : Nat) :
    ∀ (m n : Nat) (l : Limiter),
      takeRepeat l key now (m + n) =
        ((takeRepeat l key now m).1 ++
          (takeRepeat (takeRepeat l key now m).2 key now n).1,
         (takeRepeat (takeRepeat l key now m).2 key now n).2) := by
  intro m
  induction m with
  | zero => intro n l; simp [takeRepeat]
  | succ m ih =>
      intro n l
      have hshape : m + 1 + n = m + n + 1 := by omega
      rw [hshape]
      rw [show takeRepeat l key now (m + n + 1) =
        ((take l key now 1).1 :: (takeRepeat (take l key now 1).2 key now (m + n)).1,
         (takeRepeat (take l key now 1).2 key now (m + n)).2) from rfl]
      rw [show takeRepeat l key now (m + 1) =
        ((take l key now 1).1 :: (takeRepeat (take l key now 1).2 key now m).1,
         (takeRepeat (take l key now 1).2 key now m).2) from rfl]
      rw [ih n (take l key now 1).2]
      simp

/-- C7: from a fresh key and an integer capacity `C ≥ 1`, with no time
elapsing, exactly `C` consecutive `take(key, 1)` calls succeed, the
`(C+1)`-th fails and still persists the refilled-but-insufficient bucket
`{tokens 0, updatedAt t0}`; and once enough time has elapsed to refill one
token (but fewer than two) at rate `refillPerMinute / 60000` tokens per
millisecond, exactly one further `take(key, 1)` succeeds and the next one
fails again. -/
theorem C7_token_bucket_drain_and_refill (C : Nat) (hC : 1 ≤ C)
    (rpm : Rat) (t0 t1 : Nat) (key : String)
    (h1 : 1 ≤ ((t1 : Rat) - (t0 : Rat)) * (rpm / 60000))
    (h2 : ((t1 : Rat) - (t0 : Rat)) * (rpm / 60000) < 2) :
    (takeRepeat (mkLimiter (C : Rat) rpm) key t0 C).1 = List.replicate C true
    ∧ (takeRepeat (mkLimiter (C : Rat) rpm) key t0 (C + 1)).1 =
        List.replicate C true ++ [false]
    ∧ (takeRepeat (mkLimiter (C : Rat) rpm) key t0 (C + 1)).2.buckets key =
        some ⟨0, t0⟩
    ∧ (take (takeRepeat (mkLimiter (C : Rat) rpm) key t0 (C + 1)).2 key t1 1).1 = true
    ∧ (take (take (takeRepeat (mkLimiter (C : Rat) rpm) key t0 (C + 1)).2 key t1 1).2
        key t1 1).1 = false := by
  obtain ⟨ha, hbkt, hcap, href⟩ :=
    takeRepeat_drain key t0 C (mkLimiter (C : Rat) rpm) (C : Rat)
      (by simp [mkLimiter]) le_rfl (by simp [mkLimiter])
  have hbkt0 : (((takeRepeat (mkLimiter (C : Rat) rpm) key t0 C).2.buckets key).getD
      ⟨(takeRepeat (mkLimiter (C : Rat) rpm) key t0 C).2.capacity, t0⟩) =
      ⟨0, t0⟩ := by simpa using hbkt
  have hcapC : (takeRepeat (mkLimiter (C : Rat) rpm) key t0 C).2.capacity = (C : Rat) := by
    simpa [mkLimiter] using hcap
  have hrefC : (takeRepeat (mkLimiter (C : Rat) rpm) key t0 C).2.refillPerMs =
      rpm / 60000 := by simpa [mkLimiter] using href
  have hC0 : (0 : Rat) ≤ (C : Rat) := Nat.cast_nonneg C
  have hC1 : (1 : Rat) ≤ (C : Rat) := by exact_mod_cast hC
  have hz0 : (0 : Rat) + ((t0 : Rat) - (t0 : Rat)) * (rpm / 60000) = 0 := by ring
  -- the (C+1)-th call: zero elapsed, zero balance, fails and persists
  have hfail : take (takeRepeat (mkLimiter (C : Rat) rpm) key t0 C).2 key t0 1 =
      (false, ⟨(C : Rat), rpm / 60000,
        fun j => if j = key then some ⟨0, t0⟩
          else (takeRepeat (mkLimiter (C : Rat) rpm) key t0 C).2.buckets j⟩) := by
    rw [take_step _ key t0 t0 1 0 hbkt0, hcapC, hrefC, hz0, min_eq_right hC0,
      if_neg (by norm_num)]
  have hone : takeRepeat (takeRepeat (mkLimiter (C : Rat) rpm) key t0 C).2 key t0 1 =
      ([false], ⟨(C : Rat), rpm / 60000,
        fun j => if j = key then some ⟨0, t0⟩
          else (takeRepeat (mkLimiter (C : Rat) rpm) key t0 C).2.buckets j⟩) := by
    rw [show takeRepeat (takeRepeat (mkLimiter (C : Rat) rpm) key t0 C).2 key t0 1 =
      ((take (takeRepeat (mkLimiter (C : Rat) rpm) key t0 C).2 key t0 1).1 ::
        (takeRepeat (take (takeRepeat (mkLimiter (C : Rat) rpm) key t0 C).2 key t0 1).2
          key t0 0).1,
       (takeRepeat (take (takeRepeat (mkLimiter (C : Rat) rpm) key t0 C).2 key t0 1).2
          key t0 0).2) from rfl]
    rw [hfail]
    rfl
  have hCp1 : takeRepeat (mkLimiter (C : Rat) rpm) key t0 (C + 1) =
      (List.replicate C true ++ [false], ⟨(C : Rat), rpm / 60000,
        fun j => if j = key then some ⟨0, t0⟩
          else (takeRepeat (mkLimiter (C : Rat) rpm) key t0 C).2.buckets j⟩) := by
    rw [takeRepeat_add key t0 C 1 (mkLimiter (C : Rat) rpm), ha, hone]
  have hbL2 : (((⟨(C : Rat), rpm / 60000,
      fun j => if j = key then some ⟨0, t0⟩
        else (takeRepeat (mkLimiter (C : Rat) rpm) key t0 C).2.buckets j⟩ : Limiter).buckets
      key).getD ⟨(C : Rat), t1⟩) = ⟨0, t0⟩ := by simp
  have hcond1 : (1 : Rat) ≤ min (C : Rat) (0 + ((t1 : Rat) - (t0 : Rat)) * (rpm / 60000)) := by
    refine le_min hC1 ?_
    rw [zero_add]
    exact h1
  have hd : take (⟨(C : Rat), rpm / 60000,
      fun j => if j = key then some ⟨0, t0⟩
        else (takeRepeat (mkLimiter (C : Rat) rpm) key t0 C).2.buckets j⟩ : Limiter)
      key t1 1 =
      (true, ⟨(C : Rat), rpm / 60000, fun j =>
        if j = key then
          some ⟨min (C : Rat) (0 + ((t1 : Rat) - (t0 : Rat)) * (rpm / 60000)) - 1, t1⟩
        else (⟨(C : Rat), rpm / 60000,
          fun i => if i = key then some ⟨0, t0⟩
            else (takeRepeat (mkLimiter (C : Rat) rpm) key t0 C).2.buckets i⟩ :
              Limiter).buckets j⟩) := by
    rw [take_step _ key t1 t0 1 0 hbL2, if_pos hcond1]
  refine ⟨ha, ?_, ?_, ?_, ?_⟩
  · rw [hCp1]
  · rw [hCp1]; simp
  · rw [hCp1]
    show (take (⟨(C : Rat), rpm / 60000,
      fun j => if j = key then some ⟨0, t0⟩
        else (takeRepeat (mkLimiter (C : Rat) rpm) key t0 C).2.buckets j⟩ : Limiter)
      key t1 1).1 = true
    rw [hd]
  · rw [hCp1]
    show (take (take (⟨(C : Rat), rpm / 60000,
      fun j => if j = key then some ⟨0, t0⟩
        else (takeRepeat (mkLimiter (C : Rat) rpm) key t0 C).2.buckets j⟩ : Limiter)
      key t1 1).2 key t1 1).1 = false
    rw [hd]
    show (take (⟨(C : Rat), rpm / 60000, fun j =>
      if j = key then
        some ⟨min (C : Rat) (0 + ((t1 : Rat) - (t0 : Rat)) * (rpm / 60000)) - 1, t1⟩
      else (⟨(C : Rat), rpm / 60000,
        fun i => if i = key then some ⟨0, t0⟩
          else (takeRepeat (mkLimiter (C : Rat) rpm) key t0 C).2.buckets i⟩ :
            Limiter).buckets j⟩ : Limiter) key t1 1).1 = false
    have hbL3 : (((⟨(C : Rat), rpm / 60000, fun j =>
        if j = key then
          some ⟨min (C : Rat) (0 + ((t1 : Rat) - (t0 : Rat)) * (rpm / 60000)) - 1, t1⟩
        else (⟨(C : Rat), rpm / 60000,
          fun i => if i = key then some ⟨0, t0⟩
            else (takeRepeat (mkLimiter (C : Rat) rpm) key t0 C).2.buckets i⟩ :
              Limiter).buckets j⟩ : Limiter).buckets key).getD ⟨(C : Rat), t1⟩) =
        ⟨min (C : Rat) (0 + ((t1 : Rat) - (t0 : Rat)) * (rpm / 60000)) - 1, t1⟩ := by
      simp
    rw [take_step _ key t1 t1 1 _ hbL3]
    rw [if_neg (by
      have he0 : ((t1 : Rat) - (t1 : Rat)) * (rpm / 60000) = 0 := by ring
      rw [he0]
      have hm1 : min (C : Rat) (0 + ((t1 : Rat) - (t0 : Rat)) * (rpm / 60000)) ≤
          0 + ((t1 : Rat) - (t0 : Rat)) * (rpm / 60000) := min_le_right _ _
      have hm2 : min (C : Rat)
          (min (C : Rat) (0 + ((t1 : Rat) - (t0 : Rat)) * (rpm / 60000)) - 1 + 0) ≤
          min (C : Rat) (0 + ((t1 : Rat) - (t0 : Rat)) * (rpm / 60000)) - 1 + 0 :=
        min_le_right _ _
      intro hcon
      linarith)]

/-- Witness for C7 at capacity 2, `refillPerMinute = 60000` (one token per
millisecond), a fresh key, takes at time 10 and the refill probe at
time 11. -/
theorem C7_token_bucket_drain_and_refill_witness :
    (takeRepeat (mkLimiter ((2 : Nat) : Rat) 60000) "ip" 10 2).1 = [true, true]
    ∧ (takeRepeat (mkLimiter ((2 : Nat) : Rat) 60000) "ip" 10 3).1 = [true, true, false]
    ∧ (takeRepeat (mkLimiter ((2 : Nat) : Rat) 60000) "ip" 10 3).2.buckets "ip" =
        some ⟨0, 10⟩
    ∧ (take (takeRepeat (mkLimiter ((2 : Nat) : Rat) 60000) "ip" 10 3).2 "ip" 11 1).1 = true
    ∧ (take (take (takeRepeat (mkLimiter ((2 : Nat) : Rat) 60000) "ip" 10 3).2 "ip" 11 1).2
        "ip" 11 1).1 = false :=
  C7_token_bucket_drain_and_refill 2 (by norm_num) 60000 10 11 "ip"
    (by norm_num) (by norm_num)

end RateLimit

/-! ## Envelope schema validator (src/tunnel/schema.ts) -/

namespace Schema

/-- A JavaScript number as far as the validator observes it: a finite
value (modelled exactly as a rational; the validator never does arithmetic
on it), `NaN`, or an infinity. -/
inductive JNum where
  | fin (q : Rat)
  | nan
  | inf
  | neginf

/-- A JSON-ish JavaScript value, the inputs `validateEnvelope` can see.
`jsUndefined` is the `undefined` value (also what reading an absent property
yields). -/
inductive JValue where
  | str (s : String)
  | num (n : JNum)
  | jbool (b : Bool)
  | jnull
  | jsUndefined
  | obj (fields : List (String × JValue))
  | arr (elems : List JValue)

/-- `typeof v === "object" && v !== null` (`isObject` in schema.ts):
true for plain objects and arrays, false for primitives and `null`. -/
def isObject : JValue → Bool
  | .obj _ => true
  | .arr _ => true
  | _ => false

/-- JS property read `v[k]` as used by the validator: the last binding of
`k` in an object literal (later duplicate keys shadow earlier ones),
`undefined` otherwise. -/
def getField : JValue → String → JValue
  | .obj fs, k =>
      (fs.foldl (fun acc p => if p.1 = k then some p.2 else acc) none).getD .jsUndefined
  | _, _ => .jsUndefined

/-- Decimal digit sequence to value; `none` when empty or non-digit. -/
def digitsVal : List Char → Option Nat
  | [] => none
  | cs =>
      cs.foldl
        (fun acc c =>
          acc.bind fun a =>
            if c.isDigit then some (a * 10 + (c.toNat - 48)) else none)
        (some 0)

/-- Digit sequence in radix 2, 8 or 16 to value; `none` when empty or out
of range. -/
def radixVal (radix : Nat) : List Char → Option Nat
  | [] => none
  | cs =>
      cs.foldl
        (fun acc c =>
          acc.bind fun a =>
            let d :=
              if c.isDigit then some (c.toNat - 48)
              else if 'a' ≤ c ∧ c ≤ 'f' then some (c.toNat - 87)
              else if 'A' ≤ c ∧ c ≤ 'F' then some (c.toNat - 55)
              else none
            d.bind fun dv => if dv < radix then some (a * radix + dv) else none)
        (some 0)

/-- Split a character list at the first separator hit, if any. -/
def splitOn (sep : Char → Bool) : List Char → List Char × Option (List Char)
  | [] => ([], none)
  | c :: rest =>
      if sep c then ([], some rest)
      else
        let r := splitOn sep rest
        (c :: r.1, r.2)

/-- An optionally signed decimal-digit exponent. -/
def parseSignedNat : List Char → Option (Bool × Nat)
  | '+' :: rest => (digitsVal rest).map (fun v => (false, v))
  | '-' :: rest => (digitsVal rest).map (fun v => (true, v))
  | cs => (digitsVal cs).map (fun v => (false, v))

/-- `DecimalDigits.DecimalDigits?` / `.DecimalDigits` / `DecimalDigits`
(at least one digit overall, at most one dot). -/
def parseMantissa (cs : List Char) : Option Rat :=
  let sp := splitOn (· = '.') cs
  match sp.2 with
  | none => (digitsVal cs).map (fun n => (n : Rat))
  | some frac =>
      if cs.length = 1 then none
      else
        match (if sp.1.isEmpty then some 0 else digitsVal sp.1),
            (if frac.isEmpty then some 0 else digitsVal frac) with
        | some i, some f => some ((i : Rat) + (f : Rat) / (10 : Rat) ^ frac.length)
        | _, _ => none

/-- An unsigned JS decimal literal with optional exponent part. -/
def parseUnsigned (cs : List Char) : Option Rat :=
  let se := splitOn (fun c => c = 'e' ∨ c = 'E') cs
  match se.2 with
  | none => parseMantissa cs
  | some ex =>
      match parseMantissa se.1, parseSignedNat ex with
      | some m, some (neg, e) =>
          some (if neg then m / (10 : Rat) ^ e else m * (10 : Rat) ^ e)
      | _, _ => none

/-- The first magnitude past the IEEE-double range. -/
def dblOverflow : Rat := (((2 : Nat) ^ 1024 : Nat) : Rat)

/-- Magnitudes at or beyond `2^1024` overflow an IEEE double to an
infinity.  (The rounding of values within one ulp of the boundary, and the
53-bit rounding of in-range values, are not modelled; no claim depends on
them.) -/
def finiteOfRat (q : Rat) : JNum :=
  if dblOverflow ≤ q then JNum.inf
  else if q ≤ -dblOverflow then JNum.neginf
  else JNum.fin q

/-- The whitespace JS `Number()` strips from both ends (ASCII part; the
claims only exercise ASCII strings). -/
def isJsSpace (c : Char) : Bool :=
  c = ' ' ∨ c = '\t' ∨ c = '\n' ∨ c = '\r' ∨ c = '\x0b' ∨ c = '\x0c'

/-- Strip leading and trailing whitespace from a character list. -/
def trimChars (cs : List Char) : List Char :=
  ((cs.dropWhile isJsSpace).reverse.dropWhile isJsSpace).reverse

/-- JS `Number(string)`: trimmed; empty means `0`; signed `Infinity`;
`0x`/`0o`/`0b` integer literals (no sign); otherwise an optionally signed
decimal literal; anything else is `NaN`. -/
def strToNumber (s : String) : JNum :=
  let t := trimChars s.data
  if t = [] then JNum.fin 0
  else if t = "Infinity".data ∨ t = "+Infinity".data then JNum.inf
  else if t = "-Infinity".data then JNum.neginf
  else
    match t with
    | '0' :: c :: rest =>
        if c = 'x' ∨ c = 'X' then
          ((radixVal 16 rest).map fun n => finiteOfRat (n : Rat)).getD JNum.nan
        else if c = 'o' ∨ c = 'O' then
          ((radixVal 8 rest).map fun n => finiteOfRat (n : Rat)).getD JNum.nan
        else if c = 'b' ∨ c = 'B' then
          ((radixVal 2 rest).map fun n => finiteOfRat (n : Rat)).getD JNum.nan
        else ((parseUnsigned t).map finiteOfRat).getD JNum.nan
    | '+' :: rest => ((parseUnsigned rest).map finiteOfRat).getD JNum.nan
    | '-' :: rest => ((parseUnsigned rest).map fun q => finiteOfRat (-q)).getD JNum.nan
    | _ => ((parseUnsigned t).map finiteOfRat).getD JNum.nan

mutual

/-- JS `Number(v)` coercion on the modelled values.  Objects coerce via
`ToPrimitive` to `"[object Object]"`, hence `NaN`; arrays coerce via their
joined string: empty to `0`, single element to that element's string
(with `null`/`undefined` joining as the empty string), several elements to
a comma-joined string that never parses as a number. -/
def jsToNumber : JValue → JNum
  | .num n => n
  | .str s => strToNumber s
  | .jbool b => JNum.fin (if b then 1 else 0)
  | .jnull => JNum.fin 0
  | .jsUndefined => JNum.nan
  | .obj _ => JNum.nan
  | .arr xs => arrToNumber xs

/-- `Number` of an array via its join. -/
def arrToNumber : List JValue → JNum
  | [] => JNum.fin 0
  | [x] => elemToNumber x
  | _ :: _ :: _ => JNum.nan

/-- `Number(String(x))` for the single element of a one-element array:
`null`/`undefined` join as `""` (zero), numbers and strings round-trip,
booleans and objects never parse, nested arrays flatten like their own
join. -/
def elemToNumber : JValue → JNum
  | .jnull => JNum.fin 0
  | .jsUndefined => JNum.fin 0
  | .num n => n
  | .str s => strToNumber s
  | .jbool _ => JNum.nan
  | .obj _ => JNum.nan
  | .arr xs => arrToNumber xs

end

/-- `typeof v === "string"`. -/
def isString : JValue → Bool
  | .str _ => true
  | _ => false

/-- `typeof v === "number"` (`NaN` and infinities included). -/
def isNumber : JValue → Bool
  | .num _ => true
  | _ => false

/-- `v === undefined`. -/
def isUndef : JValue → Bool
  | .jsUndefined => true
  | _ => false

/-- `Number.isFinite`. -/
def isFiniteNum : JNum → Bool
  | .fin _ => true
  | _ => false

/-- `schema !== "aperture.v1"` negated: the strict comparison with the
version literal. -/
def isSchemaV1 : JValue → Bool
  | .str s => s = "aperture.v1"
  | _ => false

/-- The `allowedKinds` set of schema.ts. -/
def allowedKindStrings : List String := ["log", "error", "metric", "trace", "rum", "custom"]

/-- The `allowedSev` set of schema.ts. -/
def allowedSevStrings : List String := ["debug", "info", "warn", "error"]

/-- `allowedKinds.has(input.kind)` (membership of a `Set<string>` is false
for any non-string), returning the kind string the `switch` runs on. -/
def kindOf : JValue → Option String
  | .str s => if allowedKindStrings.contains s then some s else none
  | _ => none

/-- `allowedSev.has(level)`. -/
def sevOk : JValue → Bool
  | .str s => allowedSevStrings.contains s
  | _ => false

/-- `validateEnvelope` (schema.ts): the guard chain in source order; on
success the very same input value is returned. -/
def validateEnvelope (input : JValue) : Except String JValue :=
  if !(isObject input) then Except.error "invalid payload: expected object"
  else if !(isSchemaV1 (getField input "schema")) then Except.error "unsupported schema"
  else
    match kindOf (getField input "kind") with
    | none => Except.error "invalid kind"
    | some kind =>
        if !(isFiniteNum (jsToNumber (getField input "ts"))) then Except.error "invalid ts"
        else if kind = "log" then
          if !(sevOk (getField input "level")) then Except.error "invalid level"
          else if !(isString (getField input "message")) then Except.error "invalid message"
          else Except.ok input
        else if kind = "error" then
          if !(isString (getField input "message")) then Except.error "invalid message"
          else Except.ok input
        else if kind = "metric" then
          if !(isString (getField input "name")) then Except.error "invalid name"
          else if !(isUndef (getField input "value")) && !(isNumber (getField input "value")) then
            Except.error "invalid value"
          else Except.ok input
        else if kind = "trace" then
          if !(isString (getField input "name")) then Except.error "invalid name"
          else if !(isString (getField input "traceId")) then Except.error "invalid traceId"
          else if !(isString (getField input "spanId")) then Except.error "invalid spanId"
          else if !(isFiniteNum (jsToNumber (getField input "startTime"))) then
            Except.error "invalid startTime"
          else if !(isUndef (getField input "endTime")) &&
              !(isFiniteNum (jsToNumber (getField input "endTime"))) then
            Except.error "invalid endTime"
          else Except.ok input
        else Except.ok input

/-- The successful payload of a validation, if any. -/
def okPart : Except String JValue → Option JValue
  | .ok v => some v
  | .error _ => none

/-- The claim's words, `ts is a finite number` read literally: the field
holds an actual (finite) number value. -/
def isFiniteNumberValue (v : JValue) : Bool :=
  match v with
  | .num n => isFiniteNum n
  | _ => false

/-- The per-kind required-field conditions shared by the claimed and the
amended failure conditions, parameterised by how `finite` timestamps are
read (`fin v` tells whether the value `v` counts as a finite number). -/
def kindInvalidWith (fin : JValue → Bool) (input : JValue) : Option String → Bool
  | some "log" =>
      !(sevOk (getField input "level")) || !(isString (getField input "message"))
  | some "error" => !(isString (getField input "message"))
  | some "metric" =>
      !(isString (getField input "name")) ||
        (!(isUndef (getField input "value")) && !(isNumber (getField input "value")))
  | some "trace" =>
      !(isString (getField input "name")) || !(isString (getField input "traceId")) ||
        !(isString (getField input "spanId")) || !(fin (getField input "startTime")) ||
        (!(isUndef (getField input "endTime")) && !(fin (getField input "endTime")))
  | _ => false

/-- C5's failure condition exactly as the claim states it: not an object,
wrong schema tag, unknown kind, `ts` *is not a finite number*, or a
kind-specific required field missing or wrong-typed (with trace's
`startTime`/`endTime` also read as actual finite numbers). -/
def claimedInvalid (input : JValue) : Bool :=
  !(isObject input) ||
  !(isSchemaV1 (getField input "schema")) ||
  (kindOf (getField input "kind")).isNone ||
  !(isFiniteNumberValue (getField input "ts")) ||
  kindInvalidWith isFiniteNumberValue input (kindOf (getField input "kind"))

/-- The amended failure condition: identical except that `ts`,
`startTime` and `endTime` are run through JS `Number()` coercion before
the finiteness test, exactly as the code does (`Number(input.ts)`), so
e.g. a numeric string passes. -/
def amendedInvalid (input : JValue) : Bool :=
  !(isObject input) ||
  !(isSchemaV1 (getField input "schema")) ||
  (kindOf (getField input "kind")).isNone ||
  !(isFiniteNum (jsToNumber (getField input "ts"))) ||
  kindInvalidWith (fun v => isFiniteNum (jsToNumber v)) input
    (kindOf (getField input "kind"))

/-- A membership inversion for `kindOf`. -/
theorem kindOf_mem (v : JValue) (k : String) (h : kindOf v = some k) :
    k ∈ allowedKindStrings := by
  cases v with
  | str s =>
      simp only [kindOf] at h
      split at h
      · rename_i hc
        injection h with h2
        subst h2
        simpa using hc
      · cases h
  | num n => cases h
  | jbool b => cases h
  | jnull => cases h
  | jsUndefined => cases h
  | obj fs => cases h
  | arr xs => cases h

/-- C5 counterexample input: a log envelope whose `ts` is the *string*
`"5"`.  The claim's condition says validation must fail (`ts` is not a
finite number); the code coerces with `Number("5") = 5` and accepts. -/
def ceInput : JValue :=
  JValue.obj
    [("schema", JValue.str "aperture.v1"), ("kind", JValue.str "log"),
     ("ts", JValue.str "5"), ("level", JValue.str "info"),
     ("message", JValue.str "hi")]

set_option maxRecDepth 100000 in
/-- C5 counterexample: on `ceInput` the claimed failure condition holds,
yet `validateEnvelope` succeeds and returns the very same object — the
claim as stated is false at this input. -/
theorem C5_claimed_condition_counterexample :
    claimedInvalid ceInput = true ∧ validateEnvelope ceInput = Except.ok ceInput :=
  ⟨rfl, rfl⟩

/-- C5 (amended): `validateEnvelope raw` fails exactly when `raw` is not
an object, its `schema` differs from `"aperture.v1"`, its `kind` is
outside the known set, `Number(raw.ts)` is not finite, or a kind-specific
required field is missing or wrong-typed (with trace's `startTime` and, if
present, `endTime` also going through `Number()` coercion); otherwise it
returns the very same input object unchanged. -/
theorem C5_validate_exactly_when (input : JValue) :
    okPart (validateEnvelope input) =
      (if amendedInvalid input then none else some input) := by
  cases h1 : isObject input with
  | false => simp [validateEnvelope, amendedInvalid, h1, okPart]
  | true =>
    cases h2 : isSchemaV1 (getField input "schema") with
    | false => simp [validateEnvelope, amendedInvalid, h1, h2, okPart]
    | true =>
      rcases h3 : kindOf (getField input "kind") with _ | kind
      · simp [validateEnvelope, amendedInvalid, h1, h2, h3, okPart]
      · cases h4 : isFiniteNum (jsToNumber (getField input "ts")) with
        | false => simp [validateEnvelope, amendedInvalid, h1, h2, h3, h4, okPart]
        | true =>
          have hmem := kindOf_mem _ _ h3
          simp only [allowedKindStrings, List.mem_cons,
            List.not_mem_nil, or_false] at hmem
          rcases hmem with rfl | rfl | rfl | rfl | rfl | rfl
          · cases h5 : sevOk (getField input "level") <;>
              cases h6 : isString (getField input "message") <;>
                simp [validateEnvelope, amendedInvalid, kindInvalidWith,
                  h1, h2, h3, h4, h5, h6, okPart]
          · cases h5 : isString (getField input "message") <;>
              simp [validateEnvelope, amendedInvalid, kindInvalidWith,
                h1, h2, h3, h4, h5, okPart]
          · cases h5 : isString (getField input "name") <;>
              cases h6 : isUndef (getField input "value") <;>
                cases h7 : isNumber (getField input "value") <;>
                  simp [validateEnvelope, amendedInvalid, kindInvalidWith,
                    h1, h2, h3, h4, h5, h6, h7, okPart]
          · cases h5 : isString (getField input "name") <;>
              cases h6 : isString (getField input "traceId") <;>
                cases h7 : isString (getField input "spanId") <;>
                  cases h8 : isFiniteNum (jsToNumber (getField input "startTime")) <;>
                    cases h9 : isUndef (getField input "endTime") <;>
                      cases h10 : isFiniteNum (jsToNumber (getField input "endTime")) <;>
                        simp [validateEnvelope, amendedInvalid, kindInvalidWith,
                          h1, h2, h3, h4, h5, h6, h7, h8, h9, h10, okPart]
          · simp [validateEnvelope, amendedInvalid, kindInvalidWith,
              h1, h2, h3, h4, okPart]
          · simp [validateEnvelope, amendedInvalid, kindInvalidWith,
              h1, h2, h3, h4, okPart]

end Schema

/-! ## ContextManager (src/core/context/ContextManager.ts) -/

namespace Context

/-- A `TagRecord` scalar value. -/
inductive TagVal where
  | str (s : String)
  | num (q : Rat)
  | boolean (b : Bool)
  | null
deriving DecidableEq, Repr

/-- A `TagRecord`: string keys to scalar values, absent keys `none`. -/
def Tags : Type := String → Option TagVal

/-- `ApertureContext`: domain, impact, user and instrumentation payloads
(opaque to the context machinery, modelled as labels) plus tags. -/
structure Ctx where
  domain : Option String
  impact : Option String
  user : Option String
  instrumentation : Option String
  tags : Tags

/-- The empty context `{}`. -/
def emptyCtx : Ctx := ⟨none, none, none, none, fun _ => none⟩

/-- JS `a ?? b` / the present-key-wins rule of an object spread. -/
def orO {α : Type} (a b : Option α) : Option α :=
  match a with
  | some x => some x
  | none => b

/-- `{...a, ...b}` on tag records: keys of `b` win. -/
def mergeTags (a b : Tags) : Tags := fun k => orO (b k) (a k)

/-- The merge computed by `ContextManager.runWithContext` and
`ContextManager.mergeWithContext`:
`{...current, ...incoming, tags: shallow merge, instrumentation:
incoming.instrumentation ?? current.instrumentation}`. -/
def mergeCtx (current incoming : Ctx) : Ctx :=
  ⟨orO incoming.domain current.domain,
   orO incoming.impact current.impact,
   orO incoming.user current.user,
   orO incoming.instrumentation current.instrumentation,
   mergeTags current.tags incoming.tags⟩

/-- The stack-storage adapter's state (`createStackStorage`): the active
context is the most recently pushed one (the stack top is the list head
here; the source pushes at the array end and reads `at(-1)`). -/
structure CMState where
  stack : List Ctx

/-- A computation running under the context manager: it may read the
store and, via nested `runWithContext`, push and pop frames. -/
def Comp (α : Type) : Type := CMState → α × CMState

/-- `storage.getStore()`. -/
def getStore (s : CMState) : Option Ctx := s.stack.head?

/-- `ContextManager.getContext()`: the active snapshot or `{}`. -/
def getContextS (s : CMState) : Ctx := (getStore s).getD emptyCtx

/-- `getContext` as a computation. -/
def getContextC : Comp Ctx := fun s => (getContextS s, s)

/-- `ContextManager.runWithContext(context, fn)` over the stack storage:
merge onto the active context, push, run `fn`, pop in `finally`. -/
def runWithContext {α : Type} (incoming : Ctx) (fn : Comp α) : Comp α := fun s =>
  let merged := mergeCtx (getContextS s) incoming
  let r := fn ⟨merged :: s.stack⟩
  (r.1, ⟨r.2.stack.tail⟩)

/-- `ContextManager.mergeWithContext(context)`: pure merge onto the
active context, no state change. -/
def mergeWithContext (s : CMState) (context : Ctx) : Ctx :=
  mergeCtx (getContextS s) context

/-- `orO` is associative. -/
theorem orO_assoc {α : Type} (a b c : Option α) :
    orO (orO a b) c = orO a (orO b c) := by
  cases a <;> rfl

/-- C9: `runWithContext(partial, fn)` runs `fn` with `partial` merged onto
the active context — tags shallow-merged key by key, `instrumentation`
replaced only if provided, other fields overridden when present — and
restores the prior context once `fn` completes; nesting
`runWithContext({domain:"a", tags:{x:1}}, () => runWithContext({tags:{y:2}},
() => getContext()))` yields `{domain:"a", tags:{x:1,y:2}}`, and after both
scopes exit `getContext()` is `{}` again. -/
theorem C9_run_with_context_merge_and_restore
    (α : Type) (incoming : Ctx) (fn : Comp α) (s : CMState)
    (hfn : ∀ s', (fn s').2 = s')
    (current inner : Ctx) (k0 : String)
    (k : String) (hkx : k ≠ "x") (hky : k ≠ "y") :
    (runWithContext incoming fn s).2 = s
    ∧ (runWithContext incoming getContextC s).1 = mergeCtx (getContextS s) incoming
    ∧ (mergeCtx current inner).domain = orO inner.domain current.domain
    ∧ (mergeCtx current inner).impact = orO inner.impact current.impact
    ∧ (mergeCtx current inner).user = orO inner.user current.user
    ∧ (mergeCtx current inner).instrumentation =
        orO inner.instrumentation current.instrumentation
    ∧ (mergeCtx current inner).tags k0 = orO (inner.tags k0) (current.tags k0)
    ∧ (runWithContext
        ⟨some "a", none, none, none, fun j => if j = "x" then some (TagVal.num 1) else none⟩
        (runWithContext
          ⟨none, none, none, none, fun j => if j = "y" then some (TagVal.num 2) else none⟩
          getContextC) ⟨[]⟩).1.domain = some "a"
    ∧ (runWithContext
        ⟨some "a", none, none, none, fun j => if j = "x" then some (TagVal.num 1) else none⟩
        (runWithContext
          ⟨none, none, none, none, fun j => if j = "y" then some (TagVal.num 2) else none⟩
          getContextC) ⟨[]⟩).1.impact = none
    ∧ (runWithContext
        ⟨some "a", none, none, none, fun j => if j = "x" then some (TagVal.num 1) else none⟩
        (runWithContext
          ⟨none, none, none, none, fun j => if j = "y" then some (TagVal.num 2) else none⟩
          getContextC) ⟨[]⟩).1.tags "x" = some (TagVal.num 1)
    ∧ (runWithContext
        ⟨some "a", none, none, none, fun j => if j = "x" then some (TagVal.num 1) else none⟩
        (runWithContext
          ⟨none, none, none, none, fun j => if j = "y" then some (TagVal.num 2) else none⟩
          getContextC) ⟨[]⟩).1.tags "y" = some (TagVal.num 2)
    ∧ (runWithContext
        ⟨some "a", none, none, none, fun j => if j = "x" then some (TagVal.num 1) else none⟩
        (runWithContext
          ⟨none, none, none, none, fun j => if j = "y" then some (TagVal.num 2) else none⟩
          getContextC) ⟨[]⟩).1.tags k = none
    ∧ (runWithContext
        ⟨some "a", none, none, none, fun j => if j = "x" then some (TagVal.num 1) else none⟩
        (runWithContext
          ⟨none, none, none, none, fun j => if j = "y" then some (TagVal.num 2) else none⟩
          getContextC) ⟨[]⟩).2 = ⟨[]⟩
    ∧ getContextS ⟨[]⟩ = emptyCtx := by
  refine ⟨?_, rfl, rfl, rfl, rfl, rfl, rfl, rfl, rfl, by decide, by decide, ?_, rfl, rfl⟩
  · show (⟨(fn ⟨mergeCtx (getContextS s) incoming :: s.stack⟩).2.stack.tail⟩ : CMState) = s
    rw [hfn]
    rfl
  · simp [runWithContext, getContextC, getContextS, getStore, emptyCtx,
      mergeCtx, mergeTags, orO, hkx, hky]

/-- Witness for C9: the nested-scope example itself, with a balanced `fn`
and the probe key `"z"`. -/
theorem C9_run_with_context_merge_and_restore_witness :
    (runWithContext emptyCtx getContextC ⟨[]⟩).2 = (⟨[]⟩ : CMState)
    ∧ (runWithContext emptyCtx getContextC ⟨[]⟩).1 =
        mergeCtx (getContextS ⟨[]⟩) emptyCtx
    ∧ (mergeCtx emptyCtx emptyCtx).domain = orO emptyCtx.domain emptyCtx.domain
    ∧ (mergeCtx emptyCtx emptyCtx).impact = orO emptyCtx.impact emptyCtx.impact
    ∧ (mergeCtx emptyCtx emptyCtx).user = orO emptyCtx.user emptyCtx.user
    ∧ (mergeCtx emptyCtx emptyCtx).instrumentation =
        orO emptyCtx.instrumentation emptyCtx.instrumentation
    ∧ (mergeCtx emptyCtx emptyCtx).tags "t" = orO (emptyCtx.tags "t") (emptyCtx.tags "t")
    ∧ (runWithContext
        ⟨some "a", none, none, none, fun j => if j = "x" then some (TagVal.num 1) else none⟩
        (runWithContext
          ⟨none, none, none, none, fun j => if j = "y" then some (TagVal.num 2) else none⟩
          getContextC) ⟨[]⟩).1.domain = some "a"
    ∧ (runWithContext
        ⟨some "a", none, none, none, fun j => if j = "x" then some (TagVal.num 1) else none⟩
        (runWithContext
          ⟨none, none, none, none, fun j => if j = "y" then some (TagVal.num 2) else none⟩
          getContextC) ⟨[]⟩).1.impact = none
    ∧ (runWithContext
        ⟨some "a", none, none, none, fun j => if j = "x" then some (TagVal.num 1) else none⟩
        (runWithContext
          ⟨none, none, none, none, fun j => if j = "y" then some (TagVal.num 2) else none⟩
          getContextC) ⟨[]⟩).1.tags "x" = some (TagVal.num 1)
    ∧ (runWithContext
        ⟨some "a", none, none, none, fun j => if j = "x" then some (TagVal.num 1) else none⟩
        (runWithContext
          ⟨none, none, none, none, fun j => if j = "y" then some (TagVal.num 2) else none⟩
          getContextC) ⟨[]⟩).1.tags "y" = some (TagVal.num 2)
    ∧ (runWithContext
        ⟨some "a", none, none, none, fun j => if j = "x" then some (TagVal.num 1) else none⟩
        (runWithContext
          ⟨none, none, none, none, fun j => if j = "y" then some (TagVal.num 2) else none⟩
          getContextC) ⟨[]⟩).1.tags "z" = none
    ∧ (runWithContext
        ⟨some "a", none, none, none, fun j => if j = "x" then some (TagVal.num 1) else none⟩
        (runWithContext
          ⟨none, none, none, none, fun j => if j = "y" then some (TagVal.num 2) else none⟩
          getContextC) ⟨[]⟩).2 = ⟨[]⟩
    ∧ getContextS ⟨[]⟩ = emptyCtx :=
  C9_run_with_context_merge_and_restore Ctx emptyCtx getContextC ⟨[]⟩
    (fun _ => rfl) emptyCtx emptyCtx "t" "z" (by decide) (by decide)

end Context

/-! ## Logger (src/core/logger/Logger.ts) -/

namespace LoggerM

open Context

/-- `LoggerConfig` as the logger stores it: resolved environment and the
default tags (the `{...undefined}` spread makes an absent record behave as
the empty one). -/
structure LoggerConfig where
  environment : String
  defaultTags : Tags

/-- An `ApertureLogger` after its constructor ran: it keeps the
environment, the default tags, and the stored scope
`{...scope, tags: {...defaultTags, ...scope?.tags}}`. -/
structure ApertureLogger where
  environment : String
  defaultTags : Tags
  scope : Ctx

/-- `ApertureLogger`'s constructor (providers are carried separately by
the delivery loop; environment resolution from `NODE_ENV` happens before
this model, which receives the resolved value). -/
def mkLogger (config : LoggerConfig) (scope : Option Ctx) : ApertureLogger :=
  let sc := scope.getD emptyCtx
  ⟨config.environment, config.defaultTags,
    ⟨sc.domain, sc.impact, sc.user, sc.instrumentation,
      mergeTags config.defaultTags sc.tags⟩⟩

/-- `LogOptions`: per-call tags, domain, impact, context and error
(`error` is opaque, a label). -/
structure LogOptions where
  tags : Tags
  domain : Option String
  impact : Option String
  context : Tags
  error : Option String

/-- A `LogEvent` as `dispatch` constructs it (`runtime` holds only the
environment). -/
structure LogEvent where
  level : String
  message : String
  timestamp : Nat
  domain : Option String
  impact : Option String
  tags : Tags
  context : Tags
  error : Option String
  instrumentation : Option String
  environment : String

/-- The `baseContext` of `dispatch`:
`{...options.context, domain?, user?, instrumentation?}` — the three keys
are written only when the runtime context carries them. -/
def baseContextOf (optCtx : Tags) (rc : Ctx) : Tags := fun k =>
  if k = "domain" then orO (rc.domain.map TagVal.str) (optCtx k)
  else if k = "user" then orO (rc.user.map TagVal.str) (optCtx k)
  else if k = "instrumentation" then orO (rc.instrumentation.map TagVal.str) (optCtx k)
  else optCtx k

/-- `ApertureLogger.dispatch(level, message, options)` — the `LogEvent` it
builds and hands to every provider's `log`, at ambient context `ambient`
(what `ContextManager.mergeWithContext(this.scope)` reads) and wall clock
`now` (`new Date()`). -/
def dispatchEvent (lg : ApertureLogger) (ambient : Ctx) (now : Nat)
    (level message : String) (options : LogOptions) : LogEvent :=
  let runtimeContext := mergeCtx ambient lg.scope
  ⟨level, message, now,
   orO options.domain runtimeContext.domain,
   orO options.impact runtimeContext.impact,
   mergeTags runtimeContext.tags options.tags,
   baseContextOf options.context runtimeContext,
   options.error,
   runtimeContext.instrumentation,
   lg.environment⟩

/-- The event tags exactly as claim C3 states them: default tags, then
ambient tags, then per-call tags, in increasing precedence. -/
def claimedEventTags (defaultTags ambientTags optionTags : Tags) : Tags :=
  fun k => orO (optionTags k) (orO (ambientTags k) (defaultTags k))

/-- The event domain exactly as claim C3 states it: explicit option, else
ambient context, else undefined. -/
def claimedEventDomain (options : LogOptions) (ambient : Ctx) : Option String :=
  orO options.domain ambient.domain

/-- The empty per-call options `{}`. -/
def noOptions : LogOptions := ⟨fun _ => none, none, none, fun _ => none, none⟩

/-- C3 counterexample: a logger with default tag `x = "d"` and scope
domain `"scoped"`, emitting under an ambient context with tag `x = "a"`
and domain `"amb"`, with no per-call options.  The claim says the ambient
values win (`x = "a"`, domain `"amb"`); the code gives the default tag and
the scope domain precedence over the ambient context. -/
theorem C3_tag_precedence_counterexample :
    (dispatchEvent
        (mkLogger ⟨"production", fun k => if k = "x" then some (TagVal.str "d") else none⟩
          (some ⟨some "scoped", none, none, none, fun _ => none⟩))
        ⟨some "amb", none, none, none, fun k => if k = "x" then some (TagVal.str "a") else none⟩
        0 "info" "m" noOptions).tags "x" = some (TagVal.str "d")
    ∧ claimedEventTags (fun k => if k = "x" then some (TagVal.str "d") else none)
        (fun k => if k = "x" then some (TagVal.str "a") else none)
        noOptions.tags "x" = some (TagVal.str "a")
    ∧ (dispatchEvent
        (mkLogger ⟨"production", fun k => if k = "x" then some (TagVal.str "d") else none⟩
          (some ⟨some "scoped", none, none, none, fun _ => none⟩))
        ⟨some "amb", none, none, none, fun k => if k = "x" then some (TagVal.str "a") else none⟩
        0 "info" "m" noOptions).tags "x" ≠
      claimedEventTags (fun k => if k = "x" then some (TagVal.str "d") else none)
        (fun k => if k = "x" then some (TagVal.str "a") else none)
        noOptions.tags "x"
    ∧ (dispatchEvent
        (mkLogger ⟨"production", fun k => if k = "x" then some (TagVal.str "d") else none⟩
          (some ⟨some "scoped", none, none, none, fun _ => none⟩))
        ⟨some "amb", none, none, none, fun k => if k = "x" then some (TagVal.str "a") else none⟩
        0 "info" "m" noOptions).domain = some "scoped"
    ∧ claimedEventDomain noOptions
        ⟨some "amb", none, none, none, fun k => if k = "x" then some (TagVal.str "a") else none⟩ =
      some "amb"
    ∧ (dispatchEvent
        (mkLogger ⟨"production", fun k => if k = "x" then some (TagVal.str "d") else none⟩
          (some ⟨some "scoped", none, none, none, fun _ => none⟩))
        ⟨some "amb", none, none, none, fun k => if k = "x" then some (TagVal.str "a") else none⟩
        0 "info" "m" noOptions).domain ≠
      claimedEventDomain noOptions
        ⟨some "amb", none, none, none, fun k => if k = "x" then some (TagVal.str "a") else none⟩ := by
  refine ⟨rfl, rfl, ?_, rfl, rfl, ?_⟩ <;> decide

/-- C3 (amended): for every emission, the event's tags merge — in
increasing precedence — the ambient ContextManager tags, then the
logger's default tags, then the logger's stored scope tags, then the
per-call option tags (so a key present in both the default tags and the
ambient context resolves to the default value); and domain and impact
resolve from the explicit per-call option, else the logger's stored
scope, else the ambient context, else undefined.  The event also carries
the message, the passed clock value, the per-call error and the
configured environment. -/
theorem C3_event_tag_and_domain_resolution
    (config : LoggerConfig) (scope : Option Ctx) (ambient : Ctx) (now : Nat)
    (level message : String) (options : LogOptions) (k : String) :
    (dispatchEvent (mkLogger config scope) ambient now level message options).tags k =
      orO (options.tags k)
        (orO ((scope.getD emptyCtx).tags k)
          (orO (config.defaultTags k) (ambient.tags k)))
    ∧ (dispatchEvent (mkLogger config scope) ambient now level message options).domain =
      orO options.domain (orO (scope.getD emptyCtx).domain ambient.domain)
    ∧ (dispatchEvent (mkLogger config scope) ambient now level message options).impact =
      orO options.impact (orO (scope.getD emptyCtx).impact ambient.impact)
    ∧ (dispatchEvent (mkLogger config scope) ambient now level message options).level = level
    ∧ (dispatchEvent (mkLogger config scope) ambient now level message options).message = message
    ∧ (dispatchEvent (mkLogger config scope) ambient now level message options).timestamp = now
    ∧ (dispatchEvent (mkLogger config scope) ambient now level message options).error =
        options.error
    ∧ (dispatchEvent (mkLogger config scope) ambient now level message options).environment =
        config.environment := by
  refine ⟨?_, ?_, ?_, rfl, rfl, rfl, rfl, rfl⟩
  · show orO (options.tags k)
      (orO (orO ((scope.getD emptyCtx).tags k) (config.defaultTags k)) (ambient.tags k)) = _
    rw [orO_assoc]
  · show orO options.domain (orO (scope.getD emptyCtx).domain ambient.domain) = _
    rfl
  · show orO options.impact (orO (scope.getD emptyCtx).impact ambient.impact) = _
    rfl

end LoggerM

/-! ## Event Hub — Aperture core (src/core/Aperture.ts) -/

namespace Hub

open Context

/-- `ProviderChannel`. -/
inductive Channel where
  | client | server
deriving DecidableEq, Repr

/-- `ProviderSupportLevel`. -/
inductive SupportLevel where
  | noSupport | limited | full
deriving DecidableEq, Repr

/-- `ProviderSupportMatrix`. -/
structure SupportMatrix where
  logs : SupportLevel
  metrics : SupportLevel
  traces : SupportLevel
deriving DecidableEq, Repr

/-- `ProviderFallbackConfig`. -/
structure FallbackConfig where
  forceLogMetrics : Bool
  forceLogTraces : Bool
  fallbackToClient : Bool
deriving DecidableEq, Repr

/-- Behaviour of one optional lifecycle hook of a provider: absent,
resolving, rejecting asynchronously, or throwing synchronously. -/
inductive HookRes where
  | missing
  | resolves
  | rejects (msg : String)
  | throwsSync (msg : String)
deriving DecidableEq, Repr

/-- A provider instance as the Hub observes it: its name, which optional
methods exist, and what its lifecycle hooks do. -/
structure ProviderImpl where
  name : String
  hasLog : Bool
  hasMetric : Bool
  hasTrace : Bool
  flushHook : HookRes
  shutdownHook : HookRes
deriving DecidableEq, Repr

/-- Per-field `supports` overrides of `RegisterProviderOptions`. -/
structure SupportOverrides where
  logs : Option SupportLevel
  metrics : Option SupportLevel
  traces : Option SupportLevel
deriving DecidableEq, Repr

/-- Per-field `fallbacks` overrides of `RegisterProviderOptions`. -/
structure FallbackOverrides where
  forceLogMetrics : Option Bool
  forceLogTraces : Option Bool
  fallbackToClient : Option Bool
deriving DecidableEq, Repr

/-- `RegisterProviderOptions` after the wrapped/inline merge
(`{...wrapped.options, ...inlineOptions}` happens before this model). -/
structure RegisterOptions where
  channel : Option Channel
  supports : Option SupportOverrides
  fallbacks : Option FallbackOverrides
deriving DecidableEq, Repr

/-- `DEFAULT_FALLBACKS`. -/
def DEFAULT_FALLBACKS : FallbackConfig := ⟨false, false, false⟩

/-- `CONSOLE_FALLBACKS`. -/
def CONSOLE_FALLBACKS : FallbackConfig := ⟨true, true, false⟩

/-- `deriveSupports`: each kind defaults to `full` when the method exists
and `none` otherwise, with explicit overrides honoured. -/
def deriveSupports (p : ProviderImpl) (overrides : Option SupportOverrides) :
    SupportMatrix :=
  ⟨(overrides.bind (·.logs)).getD (if p.hasLog then .full else .noSupport),
   (overrides.bind (·.metrics)).getD (if p.hasMetric then .full else .noSupport),
   (overrides.bind (·.traces)).getD (if p.hasTrace then .full else .noSupport)⟩

/-- `resolveFallbacks`: console providers default to forced log fallback
for metrics and traces. -/
def resolveFallbacks (providerName : String) (overrides : Option FallbackOverrides) :
    FallbackConfig :=
  let base := if providerName = "console" then CONSOLE_FALLBACKS else DEFAULT_FALLBACKS
  ⟨(overrides.bind (·.forceLogMetrics)).getD base.forceLogMetrics,
   (overrides.bind (·.forceLogTraces)).getD base.forceLogTraces,
   (overrides.bind (·.fallbackToClient)).getD base.fallbackToClient⟩

/-- `hasSupport`: `full` or `limited`. -/
def hasSupport : SupportLevel → Bool
  | .full => true
  | .limited => true
  | .noSupport => false

/-- `RegisteredProvider`. -/
structure RegisteredProvider where
  name : String
  impl : ProviderImpl
  channel : Channel
  supports : SupportMatrix
  fallbacks : FallbackConfig
deriving DecidableEq, Repr

/-- The Hub state `registerProvider`/`removeProvider` act on. -/
structure HubState where
  channel : Channel
  environment : String
  providers : List RegisteredProvider
deriving DecidableEq, Repr

/-- `Aperture.registerProvider`: a provider whose target channel (explicit
option, else the Hub's own channel) differs from the Hub's channel is
skipped (only a diagnostic is printed); otherwise the entry is appended to
the registry.  The `setup` hook is invoked with failures caught and
logged; its outcome does not affect registration and is not modelled. -/
def registerProvider (hub : HubState) (p : ProviderImpl)
    (opts : Option RegisterOptions) : HubState :=
  let targetChannel := (opts.bind (·.channel)).getD hub.channel
  if targetChannel ≠ hub.channel then hub
  else
    ⟨hub.channel, hub.environment,
      hub.providers ++
        [⟨p.name, p, targetChannel, deriveSupports p (opts.bind (·.supports)),
          resolveFallbacks p.name (opts.bind (·.fallbacks))⟩]⟩

/-- `findIndex` + `splice(index, 1)`: the first entry with the given name,
and the registry without it. -/
def removeFirst : List RegisteredProvider → String →
    Option (RegisteredProvider × List RegisteredProvider)
  | [], _ => none
  | p :: rest, name =>
      if p.name = name then some (p, rest)
      else (removeFirst rest name).map (fun r => (r.1, p :: r.2))

/-- `Aperture.removeProvider(name)`: a missing name leaves everything
untouched; a found entry is spliced out and its `shutdown?.()` hook is
invoked (an async rejection is caught and logged; a synchronous throw is
not wrapped and propagates, hence the `Except`).  The returned `Option`
records which provider's shutdown hook was invoked. -/
def removeProvider (hub : HubState) (name : String) :
    Except String (HubState × Option (String × HookRes)) :=
  match removeFirst hub.providers name with
  | none => Except.ok (hub, none)
  | some (p, rest) =>
      match p.impl.shutdownHook with
      | .throwsSync msg => Except.error msg
      | h => Except.ok (⟨hub.channel, hub.environment, rest⟩, some (p.name, h))

/-- `removeFirst` finds nothing when no entry carries the name. -/
theorem removeFirst_eq_none (name : String) :
    ∀ ps : List RegisteredProvider, (∀ p ∈ ps, p.name ≠ name) →
      removeFirst ps name = none := by
  intro ps
  induction ps with
  | nil => intro h; rfl
  | cons p rest ih =>
      intro h
      simp only [removeFirst]
      rw [if_neg (h p (by simp)), ih (fun q hq => h q (by simp [hq]))]
      rfl

/-- C10: for a name matching no registered provider, `removeProvider` is a
no-op: the registry is unchanged, no shutdown hook is invoked, and no
error is raised. -/
theorem C10_remove_unknown_provider_noop (hub : HubState) (name : String)
    (h : ∀ p ∈ hub.providers, p.name ≠ name) :
    removeProvider hub name = Except.ok (hub, none) := by
  unfold removeProvider
  rw [removeFirst_eq_none name hub.providers h]

/-- Witness for C10: a hub holding providers `"console"` and `"datadog"`,
removing the unknown name `"sentry"`. -/
theorem C10_remove_unknown_provider_noop_witness :
    removeProvider
      ⟨Channel.server, "test",
        [⟨"console", ⟨"console", true, false, false, .missing, .missing⟩,
          Channel.server, ⟨.full, .noSupport, .noSupport⟩, CONSOLE_FALLBACKS⟩,
         ⟨"datadog", ⟨"datadog", true, true, true, .resolves, .resolves⟩,
          Channel.server, ⟨.full, .full, .full⟩, DEFAULT_FALLBACKS⟩]⟩
      "sentry" =
      Except.ok
        (⟨Channel.server, "test",
          [⟨"console", ⟨"console", true, false, false, .missing, .missing⟩,
            Channel.server, ⟨.full, .noSupport, .noSupport⟩, CONSOLE_FALLBACKS⟩,
           ⟨"datadog", ⟨"datadog", true, true, true, .resolves, .resolves⟩,
            Channel.server, ⟨.full, .full, .full⟩, DEFAULT_FALLBACKS⟩]⟩, none) :=
  C10_remove_unknown_provider_noop _ "sentry" (by decide)

/-- The hub `new Aperture()` builds before any registration. -/
def emptyHub (channel : Channel) (environment : String) : HubState :=
  ⟨channel, environment, []⟩

/-- A minimal provider named `"dup"`. -/
def dupProvider : ProviderImpl := ⟨"dup", true, false, false, .missing, .missing⟩

/-- C4 counterexample: registering the same provider twice on a matching
channel appends two registry entries with the same name — the code has no
duplicate-name check, so the claim's "no two entries share a name" fails
after two `registerProvider` calls. -/
theorem C4_duplicate_name_counterexample :
    ((registerProvider (registerProvider (emptyHub Channel.server "test") dupProvider none)
        dupProvider none).providers.map (fun r => r.name)) = ["dup", "dup"]
    ∧ ¬ ((registerProvider (registerProvider (emptyHub Channel.server "test") dupProvider none)
        dupProvider none).providers.map (fun r => r.name)).Nodup := by
  constructor
  · rfl
  · decide

/-- C4 (amended): `registerProvider` records a provider only when the
provider's target channel equals the Hub's own channel — a
mismatched-channel provider is skipped with a diagnostic and never added
to the registry — and every matching-channel registration appends an
entry (including repeat registrations of an already-registered name: no
duplicate-name check is performed). -/
theorem C4_register_channel_filter_and_append
    (hubA : HubState) (pA : ProviderImpl) (optsA : Option RegisterOptions)
    (hmis : (optsA.bind (·.channel)).getD hubA.channel ≠ hubA.channel)
    (hubB : HubState) (pB : ProviderImpl) (optsB : Option RegisterOptions)
    (hmatch : (optsB.bind (·.channel)).getD hubB.channel = hubB.channel) :
    registerProvider hubA pA optsA = hubA
    ∧ (registerProvider hubB pB optsB).providers =
        hubB.providers ++
          [⟨pB.name, pB, (optsB.bind (·.channel)).getD hubB.channel,
            deriveSupports pB (optsB.bind (·.supports)),
            resolveFallbacks pB.name (optsB.bind (·.fallbacks))⟩]
    ∧ (registerProvider hubB pB optsB).channel = hubB.channel
    ∧ (registerProvider hubB pB optsB).environment = hubB.environment := by
  refine ⟨?_, ?_, ?_, ?_⟩
  · show (if (optsA.bind (·.channel)).getD hubA.channel ≠ hubA.channel then hubA
      else _) = hubA
    rw [if_pos hmis]
  · show (if (optsB.bind (·.channel)).getD hubB.channel ≠ hubB.channel then hubB
      else _).providers = _
    rw [if_neg (not_not_intro hmatch)]
  · show (if (optsB.bind (·.channel)).getD hubB.channel ≠ hubB.channel then hubB
      else _).channel = _
    rw [if_neg (not_not_intro hmatch)]
  · show (if (optsB.bind (·.channel)).getD hubB.channel ≠ hubB.channel then hubB
      else _).environment = _
    rw [if_neg (not_not_intro hmatch)]

/-- Witness for C4 (amended): an explicit `client` channel option is
skipped by a `server` hub; a registration without a channel option is
appended. -/
theorem C4_register_channel_filter_and_append_witness :
    registerProvider (emptyHub Channel.server "test") dupProvider
      (some ⟨some Channel.client, none, none⟩) = emptyHub Channel.server "test"
    ∧ (registerProvider (emptyHub Channel.server "test") dupProvider none).providers =
        (emptyHub Channel.server "test").providers ++
          [⟨dupProvider.name, dupProvider,
            ((none : Option RegisterOptions).bind (·.channel)).getD
              (emptyHub Channel.server "test").channel,
            deriveSupports dupProvider ((none : Option RegisterOptions).bind (·.supports)),
            resolveFallbacks dupProvider.name
              ((none : Option RegisterOptions).bind (·.fallbacks))⟩]
    ∧ (registerProvider (emptyHub Channel.server "test") dupProvider none).channel =
        (emptyHub Channel.server "test").channel
    ∧ (registerProvider (emptyHub Channel.server "test") dupProvider none).environment =
        (emptyHub Channel.server "test").environment :=
  C4_register_channel_filter_and_append
    (emptyHub Channel.server "test") dupProvider (some ⟨some Channel.client, none, none⟩)
    (by decide) (emptyHub Channel.server "test") dupProvider none rfl

/-- Was the optional hook a synchronous throw? -/
def isSyncThrow : HookRes → Bool
  | .throwsSync _ => true
  | _ => false

/-- Was the optional hook an asynchronous rejection? -/
def isReject : HookRes → Bool
  | .rejects _ => true
  | _ => false

/-- Did the joined lifecycle call resolve? -/
def isOkE : Except String Unit → Bool
  | .ok _ => true
  | .error _ => false

/-- The fan-out of `Aperture.flush` / `Aperture.shutdown` over one hook
selector:
`this.providers.map(p => p.instance.hook?.()).filter(...).map(Promise.resolve)`
followed by `await Promise.all(tasks)`.  Returns, in order: the names of
the providers whose hook was invoked (the eager `map` starts every hook
unless an earlier one throws synchronously, which aborts the `map`), the
first synchronous throw if any, and the first rejection if any
(`Promise.all` rejects with the first rejected task in order). -/
def hookFanOut (hook : ProviderImpl → HookRes) :
    List ProviderImpl → List String × Option String × Option String
  | [] => ([], none, none)
  | p :: rest =>
      match hook p with
      | .throwsSync m => ([p.name], some m, none)
      | h =>
          let r := hookFanOut hook rest
          (p.name :: r.1, r.2.1,
            match h with
            | .rejects m => some m
            | _ => r.2.2)

/-- The settled outcome of `flush()`/`shutdown()`: a synchronous throw
propagates first (it happens during the `map`, before the join); after
that `Promise.all` rejects with the first rejection; otherwise it
resolves. -/
def hookJoin (t : List String × Option String × Option String) : Except String Unit :=
  match t.2.1 with
  | some m => Except.error m
  | none =>
      match t.2.2 with
      | some m => Except.error m
      | none => Except.ok ()

/-- Providers whose flush hook `Aperture.flush` invokes. -/
def flushInvoked (ps : List ProviderImpl) : List String :=
  (hookFanOut (·.flushHook) ps).1

/-- What `await aperture.flush()` settles to. -/
def flushResult (ps : List ProviderImpl) : Except String Unit :=
  hookJoin (hookFanOut (·.flushHook) ps)

/-- Providers whose shutdown hook `Aperture.shutdown` invokes. -/
def shutdownInvoked (ps : List ProviderImpl) : List String :=
  (hookFanOut (·.shutdownHook) ps).1

/-- What `await aperture.shutdown()` settles to. -/
def shutdownResult (ps : List ProviderImpl) : Except String Unit :=
  hookJoin (hookFanOut (·.shutdownHook) ps)

/-- C2 counterexample: with provider `"a"` whose flush hook rejects with
`"boom"` (and shutdown with `"stop"`) and provider `"b"` whose hooks
resolve, both hooks are invoked but `flush()`/`shutdown()` themselves
reject — the error propagates to the caller, contradicting the claimed
no-throw join. -/
theorem C2_flush_shutdown_counterexample :
    flushResult
      [⟨"a", false, false, false, .rejects "boom", .rejects "stop"⟩,
       ⟨"b", false, false, false, .resolves, .resolves⟩] = Except.error "boom"
    ∧ flushInvoked
      [⟨"a", false, false, false, .rejects "boom", .rejects "stop"⟩,
       ⟨"b", false, false, false, .resolves, .resolves⟩] = ["a", "b"]
    ∧ shutdownResult
      [⟨"a", false, false, false, .rejects "boom", .rejects "stop"⟩,
       ⟨"b", false, false, false, .resolves, .resolves⟩] = Except.error "stop"
    ∧ shutdownInvoked
      [⟨"a", false, false, false, .rejects "boom", .rejects "stop"⟩,
       ⟨"b", false, false, false, .resolves, .resolves⟩] = ["a", "b"] :=
  ⟨rfl, rfl, rfl, rfl⟩

/-- With no synchronously-throwing hook, the fan-out starts every hook,
never records a synchronous throw, and records a rejection exactly when
some hook rejects. -/
theorem hookFanOut_no_sync_throw (hook : ProviderImpl → HookRes) :
    ∀ ps : List ProviderImpl, ps.all (fun p => !(isSyncThrow (hook p))) = true →
      (hookFanOut hook ps).1 = ps.map (fun p => p.name) ∧
      (hookFanOut hook ps).2.1 = none ∧
      (((hookFanOut hook ps).2.2).isNone =
        ps.all (fun p => !(isReject (hook p)))) := by
  intro ps
  induction ps with
  | nil => intro h; exact ⟨rfl, rfl, rfl⟩
  | cons p rest ih =>
      intro h
      simp only [List.all_cons, Bool.and_eq_true] at h
      obtain ⟨hp, hrest⟩ := h
      obtain ⟨ih1, ih2, ih3⟩ := ih hrest
      cases hhp : hook p with
      | throwsSync m => rw [hhp] at hp; simp [isSyncThrow] at hp
      | missing =>
          simp only [hookFanOut, hhp]
          exact ⟨by rw [ih1]; rfl, ih2, by simp [isReject, hhp, ih3]⟩
      | resolves =>
          simp only [hookFanOut, hhp]
          exact ⟨by rw [ih1]; rfl, ih2, by simp [isReject, hhp, ih3]⟩
      | rejects m =>
          simp only [hookFanOut, hhp]
          exact ⟨by rw [ih1]; rfl, ih2, by simp [isReject, hhp]⟩

/-- C2 (amended): `flush()` (resp. `shutdown()`) starts every provider's
hook eagerly — one provider's rejection does not prevent the sibling
hooks from being invoked — but the join is a bare `Promise.all`, not a
no-throw all-settled join: when no hook throws synchronously, the call
resolves exactly when no hook rejects, and otherwise rejects with the
first failure instead of resolving. -/
theorem C2_flush_shutdown_eager_but_failing_join (ps : List ProviderImpl)
    (hf : ps.all (fun p => !(isSyncThrow p.flushHook)) = true)
    (hs : ps.all (fun p => !(isSyncThrow p.shutdownHook)) = true) :
    flushInvoked ps = ps.map (fun p => p.name)
    ∧ isOkE (flushResult ps) = ps.all (fun p => !(isReject p.flushHook))
    ∧ shutdownInvoked ps = ps.map (fun p => p.name)
    ∧ isOkE (shutdownResult ps) = ps.all (fun p => !(isReject p.shutdownHook)) := by
  obtain ⟨f1, f2, f3⟩ := hookFanOut_no_sync_throw (·.flushHook) ps hf
  obtain ⟨s1, s2, s3⟩ := hookFanOut_no_sync_throw (·.shutdownHook) ps hs
  refine ⟨f1, ?_, s1, ?_⟩
  · unfold flushResult hookJoin
    rw [f2]
    rcases hr : (hookFanOut (·.flushHook) ps).2.2 with _ | m
    · rw [hr] at f3; simpa [isOkE] using f3
    · rw [hr] at f3; simpa [isOkE] using f3
  · unfold shutdownResult hookJoin
    rw [s2]
    rcases hr : (hookFanOut (·.shutdownHook) ps).2.2 with _ | m
    · rw [hr] at s3; simpa [isOkE] using s3
    · rw [hr] at s3; simpa [isOkE] using s3

/-- Witness for C2 (amended) at the counterexample's provider list. -/
theorem C2_flush_shutdown_eager_but_failing_join_witness :
    flushInvoked
      [⟨"a", false, false, false, .rejects "boom", .rejects "stop"⟩,
       ⟨"b", false, false, false, .resolves, .resolves⟩] =
      ([⟨"a", false, false, false, .rejects "boom", .rejects "stop"⟩,
        ⟨"b", false, false, false, .resolves, .resolves⟩] :
          List ProviderImpl).map (fun p => p.name)
    ∧ isOkE (flushResult
        [⟨"a", false, false, false, .rejects "boom", .rejects "stop"⟩,
         ⟨"b", false, false, false, .resolves, .resolves⟩]) =
      ([⟨"a", false, false, false, .rejects "boom", .rejects "stop"⟩,
        ⟨"b", false, false, false, .resolves, .resolves⟩] :
          List ProviderImpl).all (fun p => !(isReject p.flushHook))
    ∧ shutdownInvoked
      [⟨"a", false, false, false, .rejects "boom", .rejects "stop"⟩,
       ⟨"b", false, false, false, .resolves, .resolves⟩] =
      ([⟨"a", false, false, false, .rejects "boom", .rejects "stop"⟩,
        ⟨"b", false, false, false, .resolves, .resolves⟩] :
          List ProviderImpl).map (fun p => p.name)
    ∧ isOkE (shutdownResult
        [⟨"a", false, false, false, .rejects "boom", .rejects "stop"⟩,
         ⟨"b", false, false, false, .resolves, .resolves⟩]) =
      ([⟨"a", false, false, false, .rejects "boom", .rejects "stop"⟩,
        ⟨"b", false, false, false, .resolves, .resolves⟩] :
          List ProviderImpl).all (fun p => !(isReject p.shutdownHook)) :=
  C2_flush_shutdown_eager_but_failing_join
    [⟨"a", false, false, false, .rejects "boom", .rejects "stop"⟩,
     ⟨"b", false, false, false, .resolves, .resolves⟩] (by decide) (by decide)

/-- A `MetricEvent` as `emitMetric` consumes it (`timestamp` is a JS
`Date | undefined`, modelled as an optional millisecond stamp;
`instrumentation` opaque). -/
structure MetricEvent where
  name : String
  value : Option Rat
  unit : Option String
  timestamp : Option Nat
  domain : Option String
  impact : Option String
  tags : Tags
  context : Tags
  instrumentation : Option String

/-- `Aperture.metricToLog(event)`: the synthesized info-level `LogEvent`,
with `__fallback: "metric-as-log"` (and the metric's value/unit) merged
over the event's context; `now` stands for the `new Date()` used when the
event carries no timestamp. -/
def metricToLog (environment : String) (now : Nat) (e : MetricEvent) :
    LoggerM.LogEvent :=
  ⟨"info", "metric:" ++ e.name, e.timestamp.getD now, e.domain, e.impact, e.tags,
   fun k =>
     if k = "__fallback" then some (TagVal.str "metric-as-log")
     else if k = "unit" then e.unit.map TagVal.str
     else if k = "value" then e.value.map TagVal.num
     else e.context k,
   none, e.instrumentation, environment⟩

/-- One delivery performed by the `emitMetric` loop. -/
inductive Delivery where
  | metricCall (provider : String) (e : MetricEvent)
  | logCall (provider : String) (e : LoggerM.LogEvent)

/-- The body of `emitMetric`'s loop for one registered provider: native
delivery when `supports` grants at least limited metric support (the
optional-call `metric?.(event)` is skipped when the method is absent);
otherwise the metric-as-log fallback only when `forceLogMetrics` is set
and a `log` method exists; otherwise nothing (a diagnostic only). -/
def providerMetricDeliveries (environment : String) (now : Nat)
    (rp : RegisteredProvider) (e : MetricEvent) : List Delivery :=
  if hasSupport rp.supports.metrics then
    if rp.impl.hasMetric then [Delivery.metricCall rp.name e] else []
  else if !rp.fallbacks.forceLogMetrics then []
  else if rp.impl.hasLog then
    [Delivery.logCall rp.name (metricToLog environment now e)]
  else []

/-- `Aperture.emitMetric(event)`: the loop over the registry in order. -/
def emitMetric (environment : String) (now : Nat)
    (ps : List RegisteredProvider) (e : MetricEvent) : List Delivery :=
  ps.flatMap (fun rp => providerMetricDeliveries environment now rp e)

/-- C8: a registered provider with `supports.metrics = "none"` and
`fallbacks.forceLogMetrics = true` never receives a `metric` call from
`emitMetric`; it receives the metric as a single `log` call carrying the
synthesized event — whose `context.__fallback` is `"metric-as-log"` —
when its `log` method exists, and nothing otherwise; a provider with
neither native support nor the fallback flag receives no call at all; and
`emitMetric` is exactly this per-provider delivery over the registry in
order. -/
theorem C8_metric_fallback_routing (environment : String) (now : Nat)
    (e : MetricEvent) (rp rq : RegisteredProvider)
    (h1 : rp.supports.metrics = SupportLevel.noSupport)
    (h2 : rp.fallbacks.forceLogMetrics = true)
    (h3 : rq.supports.metrics = SupportLevel.noSupport)
    (h4 : rq.fallbacks.forceLogMetrics = false)
    (ps : List RegisteredProvider) :
    providerMetricDeliveries environment now rp e =
      (if rp.impl.hasLog then
        [Delivery.logCall rp.name (metricToLog environment now e)] else [])
    ∧ (metricToLog environment now e).context "__fallback" =
        some (TagVal.str "metric-as-log")
    ∧ providerMetricDeliveries environment now rq e = []
    ∧ emitMetric environment now ps e =
        ps.flatMap (fun r => providerMetricDeliveries environment now r e) := by
  refine ⟨?_, rfl, ?_, rfl⟩
  · unfold providerMetricDeliveries
    rw [h1, h2]
    rfl
  · unfold providerMetricDeliveries
    rw [h3, h4]
    rfl

/-- Witness for C8: a console-style provider (log only, forced fallback)
and a metrics-less provider without the fallback flag, on a concrete
latency metric. -/
theorem C8_metric_fallback_routing_witness :
    providerMetricDeliveries "production" 0
      ⟨"console", ⟨"console", true, false, false, .missing, .missing⟩,
        Channel.server, ⟨SupportLevel.full, SupportLevel.noSupport, SupportLevel.noSupport⟩,
        ⟨true, true, false⟩⟩
      ⟨"latency", some 5, some "ms", some 3, none, none, fun _ => none,
        fun _ => none, none⟩ =
      (if (⟨"console", ⟨"console", true, false, false, .missing, .missing⟩,
          Channel.server, ⟨SupportLevel.full, SupportLevel.noSupport, SupportLevel.noSupport⟩,
          ⟨true, true, false⟩⟩ : RegisteredProvider).impl.hasLog then
        [Delivery.logCall "console"
          (metricToLog "production" 0
            ⟨"latency", some 5, some "ms", some 3, none, none, fun _ => none,
              fun _ => none, none⟩)]
      else [])
    ∧ (metricToLog "production" 0
        ⟨"latency", some 5, some "ms", some 3, none, none, fun _ => none,
          fun _ => none, none⟩).context "__fallback" =
        some (TagVal.str "metric-as-log")
    ∧ providerMetricDeliveries "production" 0
      ⟨"quietProvider", ⟨"quietProvider", true, false, true, .missing, .missing⟩,
        Channel.server, ⟨SupportLevel.full, SupportLevel.noSupport, SupportLevel.full⟩,
        ⟨false, false, false⟩⟩
      ⟨"latency", some 5, some "ms", some 3, none, none, fun _ => none,
        fun _ => none, none⟩ = []
    ∧ emitMetric "production" 0 [] 
        ⟨"latency", some 5, some "ms", some 3, none, none, fun _ => none,
          fun _ => none, none⟩ =
        ([] : List RegisteredProvider).flatMap
          (fun r => providerMetricDeliveries "production" 0 r
            ⟨"latency", some 5, some "ms", some 3, none, none, fun _ => none,
              fun _ => none, none⟩) :=
  C8_metric_fallback_routing "production" 0
    ⟨"latency", some 5, some "ms", some 3, none, none, fun _ => none,
      fun _ => none, none⟩
    ⟨"console", ⟨"console", true, false, false, .missing, .missing⟩,
      Channel.server, ⟨SupportLevel.full, SupportLevel.noSupport, SupportLevel.noSupport⟩,
      ⟨true, true, false⟩⟩
    ⟨"quietProvider", ⟨"quietProvider", true, false, true, .missing, .missing⟩,
      Channel.server, ⟨SupportLevel.full, SupportLevel.noSupport, SupportLevel.full⟩,
      ⟨false, false, false⟩⟩
    rfl rfl rfl rfl []

end Hub

end Aperture
